import Mathlib

/-!
# The dout logging sink (`src/common/DoutStreambuf.cc`)

A shallow embedding of the logging sink: the output buffer with its in-band
priority tag, the flush (`overflow`) that routes a record to syslog, stderr and
the output file, reconfiguration (`handle_conf_change`), and the rotation of the
instance symlink chain (`_rotate_files`, `create_symlink`), and the emergency
path (`dout_emergency`) over the table of registered sinks.

Conventions of the embedding

* the process environment (file system, descriptors, clock text, pid, cwd) is an
  explicit `World` value passed through every operation that touches it;
* a system call fails either because the modelled file system says so (a missing
  path, an existing link) or because the world injects a failure for it
  (`World.fault`, giving the errno; `0` means no injected failure);
* everything a sink sends out (writes, syslog records, emergency reports) and
  every call that can change the file system is appended to `World.trace`;
* `char` is the signed 8-bit type of the usual targets, bytes are kept as
  naturals below 256.
-/

namespace Ceph

/-! ## Constants -/

/-- The `TIME_FMT_SZ` of the source: length of the formatted time stamp. -/
def TIME_FMT_SZ : Nat := 26

/-- Descriptor number of standard error (`unistd.h`). -/
def STDERR_FILENO : Int := 2

/-- Largest `signed int` (`limits.h`). -/
def INT_MAX : Int := 2147483647

/-- The end-of-file value of `std::char_traits<char>`. -/
def EOF : Int := -1

/-- Severity `LOG_CRIT` of `syslog.h`. -/
def LOG_CRIT : Nat := 2
/-- Severity `LOG_ERR` of `syslog.h`. -/
def LOG_ERR : Nat := 3
/-- Severity `LOG_WARNING` of `syslog.h`. -/
def LOG_WARNING : Nat := 4
/-- Severity `LOG_NOTICE` of `syslog.h`. -/
def LOG_NOTICE : Nat := 5
/-- Severity `LOG_INFO` of `syslog.h`. -/
def LOG_INFO : Nat := 6
/-- Severity `LOG_DEBUG` of `syslog.h`. -/
def LOG_DEBUG : Nat := 7
/-- Facility `LOG_USER` of `syslog.h`. -/
def LOG_USER : Nat := 8

/-- Error number `ENOENT` of `errno.h`. -/
def ENOENT : Nat := 2
/-- Error number `EEXIST` of `errno.h`. -/
def EEXIST : Nat := 17

/-- Modelled from the spec: `DoutStreambuf.h` (the enum `dout_streambuf_flags_t`)
is not among the sources. The spec describes the routing flags as a bitset of
four destinations; each is modelled as one bit. Syslog routing. -/
def DOUTSB_FLAG_SYSLOG : Nat := 1
/-- Modelled from the spec: bit of the bitset for "log records go to stderr". -/
def DOUTSB_FLAG_STDERR_LOG : Nat := 2
/-- Modelled from the spec: bit of the bitset for "error records go to stderr". -/
def DOUTSB_FLAG_STDERR_ERR : Nat := 4
/-- Modelled from the spec: the stderr routing as a whole, both stderr bits. -/
def DOUTSB_FLAG_STDERR : Nat := 6
/-- Modelled from the spec: bit of the bitset for file routing. -/
def DOUTSB_FLAG_OFILE : Nat := 8

/-- The complement `~m` of a 32-bit `int` mask. -/
def bit_not (m : Nat) : Nat := 4294967295 ^^^ m

/-! ## Environment -/

/-- Modelled from the spec: `common/code_environment.h` is not among the sources;
the spec speaks of an execution-mode flag, daemon versus utility. -/
inductive code_environment_t where
  | CODE_ENVIRONMENT_UTILITY
  | CODE_ENVIRONMENT_DAEMON
  | CODE_ENVIRONMENT_LIBRARY
  deriving DecidableEq, Repr

/-- What lives at a path: a regular file or a symbolic link. -/
inductive Node where
  | file (content : String)
  | link (target : String)
  deriving DecidableEq, Repr

/-- The system calls the sink issues, as keys of the failure injection. -/
inductive Syscall where
  | access (path : String)
  | unlink (path : String)
  | rename (oldpath newpath : String)
  | symlink (target linkpath : String)
  | open_append (path : String)
  | write (fd : Int)
  deriving DecidableEq, Repr

/-- What the process does to its environment: the output it sends (writes with
their result, syslog records, emergency reports) and the calls that change the
file system, with their errno (`0` on success). -/
inductive Event where
  | write (fd : Int) (data : List Nat) (res : Int)
  | syslog (priority : Nat) (msg : List Nat)
  | closelog
  | openlog (ident : String)
  | close (fd : Int)
  | emergency (msg : String)
  | sys (call : Syscall) (err : Int)
  deriving DecidableEq, Repr

/-- The process environment. -/
structure World where
  /-- the file system: what lives at each path -/
  fs : String → Option Node
  /-- injected failures: the errno a call fails with, `0` for none -/
  fault : Syscall → Nat
  /-- the descriptor the next successful `open` returns -/
  next_fd : Nat
  /-- current working directory (`getcwd`) -/
  cwd : String
  /-- process id (`getpid`) -/
  pid : Nat
  /-- the global `g_code_env` -/
  g_code_env : code_environment_t
  /-- the characters `TIME_FMT` renders for the current local time -/
  time_text : List Nat
  /-- the text of an errno (`cpp_strerror`, from `common/errno.h`) -/
  strerror : Int → String
  /-- everything sent out so far, oldest first -/
  trace : List Event
  /-- set when an `assert` failed -/
  aborted : Bool

/-- Modelled from the spec: `md_config_t` is declared in `common/config.h`, which
is not among the sources; the fields are those the spec lists for the
configuration snapshot and the sink reads through `conf->`. -/
structure md_config_t where
  log_file : String
  log_sym_dir : String
  log_sym_history : Int
  log_to_stderr : Bool
  err_to_stderr : Bool
  log_to_syslog : Bool
  log_per_instance : Bool
  /-- the text of `conf->name` (`to_str`, `to_cstr`) -/
  name : String
  /-- the text of `conf->name.get_type_name()` -/
  type_name : String

/-- Append an event to the trace. -/
def World.emit (w : World) (e : Event) : World :=
  { w with trace := w.trace ++ [e] }

/-- A call of `dout_emergency(msg)` made from inside the file operations. Its
delivery (`dout_emergency` below, over the sinks of the process) changes no
state the caller reads, so the call itself is recorded. -/
def World.report (w : World) (msg : String) : World :=
  w.emit (Event.emergency msg)

/-- The system call `access(path, R_OK | W_OK)`: `0` when the path is there and
no failure is injected, `-1` otherwise. -/
def sys_access (w : World) (path : String) : Int :=
  if w.fault (Syscall.access path) ≠ 0 then -1
  else if (w.fs path).isSome then 0 else -1

/-- The system call `unlink(path)`: the world after it and the errno (`0` on
success). -/
def sys_unlink (w : World) (path : String) : World × Int :=
  if w.fault (Syscall.unlink path) ≠ 0 then
    (w.emit (Event.sys (Syscall.unlink path) (w.fault (Syscall.unlink path) : Int)),
      (w.fault (Syscall.unlink path) : Int))
  else if (w.fs path).isSome then
    ({ w with fs := fun p => if p = path then none else w.fs p }.emit
        (Event.sys (Syscall.unlink path) 0), 0)
  else (w.emit (Event.sys (Syscall.unlink path) (ENOENT : Int)), (ENOENT : Int))

/-- The system call `rename(oldpath, newpath)`: an existing destination is
replaced. The world after it and the errno (`0` on success). -/
def sys_rename (w : World) (oldpath newpath : String) : World × Int :=
  if w.fault (Syscall.rename oldpath newpath) ≠ 0 then
    (w.emit (Event.sys (Syscall.rename oldpath newpath)
        (w.fault (Syscall.rename oldpath newpath) : Int)),
      (w.fault (Syscall.rename oldpath newpath) : Int))
  else if (w.fs oldpath).isSome then
    ({ w with fs := fun p =>
        if p = newpath then w.fs oldpath else if p = oldpath then none else w.fs p }.emit
        (Event.sys (Syscall.rename oldpath newpath) 0), 0)
  else (w.emit (Event.sys (Syscall.rename oldpath newpath) (ENOENT : Int)), (ENOENT : Int))

/-- The system call `symlink(target, linkpath)`: fails with `EEXIST` when the
link path is taken. The world after it and the errno (`0` on success). -/
def sys_symlink (w : World) (target linkpath : String) : World × Int :=
  if w.fault (Syscall.symlink target linkpath) ≠ 0 then
    (w.emit (Event.sys (Syscall.symlink target linkpath)
        (w.fault (Syscall.symlink target linkpath) : Int)),
      (w.fault (Syscall.symlink target linkpath) : Int))
  else if (w.fs linkpath).isSome then
    (w.emit (Event.sys (Syscall.symlink target linkpath) (EEXIST : Int)), (EEXIST : Int))
  else
    ({ w with fs := fun p => if p = linkpath then some (Node.link target) else w.fs p }.emit
        (Event.sys (Syscall.symlink target linkpath) 0), 0)

/-- The system call `open(path, O_CREAT | O_WRONLY | O_APPEND, 0600)`: the world
after it, the descriptor (`-1` on failure) and the errno. -/
def sys_open (w : World) (path : String) : World × Int × Int :=
  if w.fault (Syscall.open_append path) ≠ 0 then
    (w.emit (Event.sys (Syscall.open_append path) (w.fault (Syscall.open_append path) : Int)),
      -1, (w.fault (Syscall.open_append path) : Int))
  else
    ({ w with
        fs := fun p => if p = path ∧ (w.fs path).isNone then some (Node.file "") else w.fs p,
        next_fd := w.next_fd + 1 }.emit (Event.sys (Syscall.open_append path) 0),
      (w.next_fd : Int), 0)

/-- The system call `close(fd)`. -/
def sys_close (w : World) (fd : Int) : World :=
  w.emit (Event.close fd)

/-- Modelled from the spec: `safe_write` of `common/safe_io.h` is not among the
sources; one write attempt of the whole data (retrying interrupted calls only),
`0` on success and the negated errno on failure. The attempt is recorded with its
result. -/
def safe_write (w : World) (fd : Int) (data : List Nat) : World × Int :=
  (w.emit (Event.write fd data (-(w.fault (Syscall.write fd) : Int))),
   -(w.fault (Syscall.write fd) : Int))

/-! ## Helper functions -/

/-- Source `fd_is_open`: a zero-byte `write` tells whether the descriptor is
open; `res` is `-1` when the write fails and `0` (the bytes written) otherwise. -/
def fd_is_open (w : World) (fd : Int) : Bool :=
  let res : Int := if w.fault (Syscall.write fd) ≠ 0 then -1 else 0
  decide (res = 0)

/-- Source `normalize_relative`. -/
def normalize_relative (w : World) (frm : String) : String :=
  if frm.data.head? = some '/' then frm
  else w.cwd ++ "/" ++ frm

/-- Source `prio_is_visible_on_stderr`. -/
def prio_is_visible_on_stderr (prio : Int) : Bool :=
  decide (prio = -1)

/-- Source `dout_prio_to_syslog_prio`. -/
def dout_prio_to_syslog_prio (prio : Int) : Nat :=
  if prio ≤ 3 then LOG_CRIT
  else if prio ≤ 5 then LOG_ERR
  else if prio ≤ 15 then LOG_WARNING
  else if prio ≤ 30 then LOG_NOTICE
  else if prio ≤ 40 then LOG_INFO
  else LOG_DEBUG

/-- Index of the last occurrence of a character (`std::string::find_last_of`
with a one-character set), `none` for `npos`. -/
def find_last_of (c : Char) : List Char → Option Nat
  | [] => none
  | x :: xs =>
    match find_last_of c xs with
    | some k => some (k + 1)
    | none => if x = c then some 0 else none

/-- Source `get_basename`. -/
def get_basename (filename : String) : String :=
  match find_last_of '/' filename.data with
  | none => filename
  | some last_slash => String.mk (filename.data.drop (last_slash + 1))

/-- Source `get_dirname`. -/
def get_dirname (filename : String) : String :=
  match find_last_of '/' filename.data with
  | none => "."
  | some last_slash =>
    if last_slash = 0 then filename
    else String.mk (filename.data.take last_slash)

/-- The loop of `create_symlink` (`while (1)`): try the link; when the path is
taken remove it and try again. Each further round follows a successful unlink
of an existing path, after which the path is free, so the rounds are bounded by
whether the link path exists. -/
def create_symlink_loop (oldpath newpath : String) (w : World) : World × Int :=
  if (sys_symlink w oldpath newpath).2 = 0 then
    ((sys_symlink w oldpath newpath).1, 0)
  else if (sys_symlink w oldpath newpath).2 = (EEXIST : Int) then
    -- Handle EEXIST
    if (sys_unlink (sys_symlink w oldpath newpath).1 newpath).2 ≠ 0 then
      ((sys_unlink (sys_symlink w oldpath newpath).1 newpath).1.report
          ("create_symlink: failed to remove '" ++ newpath ++ "': "
            ++ w.strerror (sys_unlink (sys_symlink w oldpath newpath).1 newpath).2 ++ "\n"),
        (sys_unlink (sys_symlink w oldpath newpath).1 newpath).2)
    else
      create_symlink_loop oldpath newpath
        (sys_unlink (sys_symlink w oldpath newpath).1 newpath).1
  else
    -- Other errors
    ((sys_symlink w oldpath newpath).1.report
        ("create_symlink: failed to symlink(oldpath='" ++ oldpath ++ "', newpath='"
          ++ newpath ++ "'): " ++ w.strerror (sys_symlink w oldpath newpath).2 ++ "\n"),
      (sys_symlink w oldpath newpath).2)
termination_by (if (w.fs newpath).isSome then 1 else 0)
decreasing_by
  rename_i h0 _ h2
  simp only [sys_symlink, sys_unlink] at h0 h2 ⊢
  simp only [World.emit] at h0 h2 ⊢
  by_cases hs : w.fault (Syscall.symlink oldpath newpath) = 0
  · by_cases he : (w.fs newpath).isSome = true
    · simp only [hs, he] at h0 h2 ⊢
      by_cases hu : w.fault (Syscall.unlink newpath) = 0
      · simp [hu, he]
      · simp [hu] at h2
    · simp [hs, he] at h0
  · by_cases he : (w.fs newpath).isSome = true
    · by_cases hu : w.fault (Syscall.unlink newpath) = 0
      · simp [hs, hu, he]
      · simp [hs, hu] at h2
    · by_cases hu : w.fault (Syscall.unlink newpath) = 0
      · simp [hs, hu, he, ENOENT] at h2
      · simp [hs, hu] at h2

/-- Source `create_symlink`. -/
def create_symlink (w : World) (oldpath newpath : String) : World × Int :=
  -- Create relative symlink if the files are in the same directory
  if get_dirname oldpath = get_dirname newpath then
    create_symlink_loop ("./" ++ get_basename oldpath) newpath w
  else
    create_symlink_loop oldpath newpath w

/-! ## The sink -/

/-- The state of a `DoutStreambuf<char>`, the members the source file reads and
writes (the class is declared in the absent `DoutStreambuf.h`): routing flags,
output descriptor, the output buffer `obuf` (its length is `OBUF_SZ`) with the
put area of the stream buffer as indices into it (`pbase`, `pptr`, `epptr`), and
the file identity. -/
structure DoutStreambuf where
  flags : Nat
  ofd : Int
  obuf : List Nat
  pbase : Nat
  pptr : Nat
  epptr : Nat
  opath : String
  symlink_dir : String
  isym_path : String
  type_name : String

/-- The value of a byte read through `char` (signed, 8 bits). -/
def char_to_int (b : Nat) : Int :=
  if b < 128 then (b : Int) else (b : Int) - 256

/-- The byte an `int` is cut down to when stored in an `unsigned char`. -/
def int_to_uchar (v : Int) : Nat := (v % 256).toNat

/-- Length of the zero-terminated string that starts a byte sequence
(`strlen`). -/
def strlen : List Nat → Nat
  | [] => 0
  | b :: bs => if b = 0 then 0 else strlen bs + 1

/-- The zero-terminated string that starts at `off` in a buffer. -/
def c_str (buf : List Nat) (off : Nat) : List Nat :=
  (buf.drop off).take (strlen (buf.drop off))

/-- Store bytes into a buffer from index `i` on. -/
def store (buf : List Nat) : Nat → List Nat → List Nat
  | _, [] => buf
  | i, b :: bs => store (buf.set i b) (i + 1) bs

/-- The call `snprintf(buf, size, ...)` for an already rendered text: at most
`size - 1` characters, then the terminating zero. -/
def snprintf (buf : List Nat) (size : Nat) (text : List Nat) : List Nat :=
  store buf 0 (text.take (size - 1) ++ [0])

/-- Source `DoutStreambuf::_clear_output_buffer`:
`setp(obuf + TIME_FMT_SZ, obuf + OBUF_SZ - TIME_FMT_SZ - 5)`. -/
def DoutStreambuf._clear_output_buffer (s : DoutStreambuf) : DoutStreambuf :=
  { s with
    pbase := TIME_FMT_SZ,
    pptr := TIME_FMT_SZ,
    epptr := s.obuf.length - TIME_FMT_SZ - 5 }

/-- Source constructor `DoutStreambuf::DoutStreambuf` (the sink itself; the
registration in the emergency table is `Process.construct`): `flags(0)`,
`ofd(-1)`, cleared output buffer. `OBUF_SZ` is declared in the absent header and
is taken as a parameter. -/
def DoutStreambuf.init (OBUF_SZ : Nat) : DoutStreambuf :=
  DoutStreambuf._clear_output_buffer
    { flags := 0, ofd := -1, obuf := List.replicate OBUF_SZ 0,
      pbase := 0, pptr := 0, epptr := 0,
      opath := "", symlink_dir := "", isym_path := "", type_name := "" }

/-- Source `DoutStreambuf::set_prio`: the sentinel byte, then the biased
priority, at the put pointer. -/
def DoutStreambuf.set_prio (s : DoutStreambuf) (prio : Int) : DoutStreambuf :=
  { s with
    obuf := (s.obuf.set s.pptr 1).set (s.pptr + 1) (int_to_uchar (prio + 11)),
    pptr := s.pptr + 2 }

/-- The priority `overflow` reads from the record:
`signed int prio = obuf[TIME_FMT_SZ] - 12`, after the two terminating zeros
were stored at the put pointer. -/
def DoutStreambuf.record_prio (s : DoutStreambuf) : Int :=
  char_to_int ((((s.obuf.set s.pptr 0).set (s.pptr + 1) 0).getD TIME_FMT_SZ 0)) - 12

/-- The buffer as `overflow` sends it out: zero-terminated at the put pointer,
the time stamp printed over the reserved header, a space after it. -/
def DoutStreambuf.formatted (s : DoutStreambuf) (time_text : List Nat) : List Nat :=
  (snprintf ((s.obuf.set s.pptr 0).set (s.pptr + 1) 0) (TIME_FMT_SZ + 1) time_text).set
    TIME_FMT_SZ 32

/-- Source `DoutStreambuf::overflow`, the syslog step. -/
def overflow_syslog (flags : Nat) (prio : Int) (obuf : List Nat) (w : World) : World :=
  if flags &&& DOUTSB_FLAG_SYSLOG ≠ 0 then
    w.emit (Event.syslog (LOG_USER ||| dout_prio_to_syslog_prio prio)
      (c_str obuf (TIME_FMT_SZ + 1)))
  else w

/-- Source `DoutStreambuf::overflow`, the stderr step: the flags and the world
after it. -/
def overflow_stderr (flags : Nat) (prio : Int) (obuf : List Nat) (w : World) : Nat × World :=
  if (prio = -1 ∧ flags &&& DOUTSB_FLAG_STDERR_ERR ≠ 0) ∨
     (prio ≠ -1 ∧ flags &&& DOUTSB_FLAG_STDERR_LOG ≠ 0) then
    if (safe_write w STDERR_FILENO (c_str obuf 0)).2 ≠ 0 then
      (flags &&& bit_not DOUTSB_FLAG_STDERR, (safe_write w STDERR_FILENO (c_str obuf 0)).1)
    else (flags, (safe_write w STDERR_FILENO (c_str obuf 0)).1)
  else (flags, w)

/-- Source `DoutStreambuf::overflow`, the file step: the flags and the world
after it. -/
def overflow_ofile (flags : Nat) (ofd : Int) (obuf : List Nat) (w : World) : Nat × World :=
  if flags &&& DOUTSB_FLAG_OFILE ≠ 0 then
    if (safe_write w ofd (c_str obuf 0)).2 ≠ 0 then
      (flags &&& bit_not DOUTSB_FLAG_OFILE, (safe_write w ofd (c_str obuf 0)).1)
    else (flags, (safe_write w ofd (c_str obuf 0)).1)
  else (flags, w)

/-- The value `traits::not_eof(c)`. -/
def not_eof (c : Int) : Int := if c = EOF then 0 else c

/-- Source `DoutStreambuf::overflow`: terminate the record, read its priority,
print the time stamp, send the line to syslog, stderr and the file as the flags
say, clear the buffer, return `not_eof(c)`. -/
def DoutStreambuf.overflow (s : DoutStreambuf) (w : World) (c : Int) :
    DoutStreambuf × World × Int :=
  let prio := s.record_prio
  let obuf := s.formatted w.time_text
  let w1 := overflow_syslog s.flags prio obuf w
  let r2 := overflow_stderr s.flags prio obuf w1
  let r3 := overflow_ofile r2.1 s.ofd obuf r2.2
  (DoutStreambuf._clear_output_buffer { s with obuf := obuf, flags := r3.1 },
    r3.2, not_eof c)

/-- Source `DoutStreambuf::sync`. -/
def DoutStreambuf.sync (s : DoutStreambuf) (w : World) : DoutStreambuf × World × Int :=
  if (s.overflow w EOF).2.2 = EOF then ((s.overflow w EOF).1, (s.overflow w EOF).2.1, -1)
  else ((s.overflow w EOF).1, (s.overflow w EOF).2.1, 0)

/-- The member `sputc` of `std::basic_streambuf`, as the C++ standard gives it:
with room in the put area the character is stored at the put pointer, otherwise
the result is that of `overflow(c)`. -/
def DoutStreambuf.sputc (s : DoutStreambuf) (w : World) (c : Nat) :
    DoutStreambuf × World × Int :=
  if s.pptr < s.epptr then
    ({ s with obuf := s.obuf.set s.pptr c, pptr := s.pptr + 1 }, w, (c : Int))
  else s.overflow w (c : Int)

/-- Writing a sequence of characters, one `sputc` each (`xsputn`). -/
def DoutStreambuf.sputn (s : DoutStreambuf) (w : World) : List Nat → DoutStreambuf × World
  | [] => (s, w)
  | c :: cs => DoutStreambuf.sputn (s.sputc w c).1 (s.sputc w c).2.1 cs

/-- Source `DoutStreambuf::handle_stderr_shutdown`. -/
def DoutStreambuf.handle_stderr_shutdown (s : DoutStreambuf) : DoutStreambuf :=
  { s with flags := s.flags &&& bit_not DOUTSB_FLAG_STDERR }

/-! ## File identity, rotation, reconfiguration -/

/-- The path of entry `i` of the chain rooted at `base`, as both loops of
`_rotate_files` build it: `oss << base; if (i != -1) oss << "." << i;`. -/
def chain_path (base : String) (i : Int) : String :=
  if i ≠ -1 then base ++ "." ++ toString i else base

/-- First loop of `_rotate_files`: from `i` upwards while `i < INT_MAX` and the
entry is accessible; the value of `i` when the loop is left. The first argument
bounds the number of rounds; `INT_MAX + 2` rounds are never used up. -/
def rotate_scan (w : World) (base : String) : Nat → Int → Int
  | 0, i => i
  | fuel + 1, i =>
    if i < INT_MAX then
      if sys_access w (chain_path base i) ≠ 0 then i
      else rotate_scan w base fuel (i + 1)
    else i

/-- Second loop of `_rotate_files`, `for (j = max_symlink; j >= -1; --j)`, with
`n = j + 2` rounds to go: the entry at `j` is unlinked when `k = j + 1` reaches
`log_sym_history`, renamed to `base.k` otherwise; the first error ends the
rotation and is returned. -/
def rotate_shift (conf : md_config_t) (base : String) : Nat → World → World × Int
  | 0, w => (w, 0)
  | n + 1, w =>
    let j : Int := (n : Int) - 1
    let path := chain_path base j
    let k : Int := j + 1
    if k ≥ conf.log_sym_history then
      let r := sys_unlink w path
      if r.2 ≠ 0 then
        (r.1.report ("_rotate_files: failed to unlink '" ++ path ++ "': "
            ++ w.strerror r.2 ++ "\n"), r.2)
      else rotate_shift conf base n r.1
    else
      let new_path := base ++ "." ++ toString k
      let r := sys_rename w path new_path
      if r.2 ≠ 0 then
        (r.1.report ("_rotate_files: failed to rename '" ++ path ++ "' to '" ++ new_path
            ++ "': " ++ w.strerror r.2 ++ "\n"), r.2)
      else rotate_shift conf base n r.1

/-- Source `DoutStreambuf::_rotate_files`: find the end of the chain, then shift
it from `max_symlink = i - 1` down to `-1`. -/
def _rotate_files (w : World) (conf : md_config_t) (base : String) : World × Int :=
  let i := rotate_scan w base 2147483649 (-1)
  let max_symlink := i - 1
  rotate_shift conf base (max_symlink + 2).toNat w

/-- Source `DoutStreambuf::_calculate_opath`. -/
def _calculate_opath (w : World) (conf : md_config_t) : String :=
  if conf.log_file = "" then ""
  else if conf.log_per_instance ∧
      w.g_code_env = code_environment_t.CODE_ENVIRONMENT_DAEMON then
    normalize_relative w conf.log_file ++ "." ++ toString w.pid
  else normalize_relative w conf.log_file

/-- Source `DoutStreambuf::_get_symlink_dir`. -/
def DoutStreambuf._get_symlink_dir (s : DoutStreambuf) (w : World) (conf : md_config_t) :
    String :=
  if conf.log_sym_dir ≠ "" then normalize_relative w conf.log_sym_dir
  else get_dirname s.opath

/-- Source `DoutStreambuf::_read_ofile_config`, its last step: `assert(ofd == -1)`
and the `open` of `opath`. -/
def DoutStreambuf.open_ofile (s : DoutStreambuf) (w : World) : DoutStreambuf × World × Int :=
  if s.ofd ≠ -1 then (s, { w with aborted := true }, -1)
  else
    let r := sys_open w s.opath
    if r.2.1 = -1 then
      ({ s with ofd := r.2.1 },
        r.1.report ("failed to open log file '" ++ s.opath ++ "': "
          ++ w.strerror r.2.2 ++ "\n"),
        r.2.2)
    else ({ s with ofd := r.2.1 }, r.1, 0)

/-- Source `DoutStreambuf::_read_ofile_config`, the instance symlink step: compute
`isym_path`, rotate the chain rooted there, create the link, then open. -/
def DoutStreambuf.read_instance (s : DoutStreambuf) (w : World) (conf : md_config_t) :
    DoutStreambuf × World × Int :=
  -- Calculate instance symlink path (isym_path)
  let s1 := { s with isym_path := s.symlink_dir ++ "/" ++ conf.name }
  -- Rotate isym_path
  let r := _rotate_files w conf s1.isym_path
  if r.2 ≠ 0 then
    (s1, r.1.report "_read_ofile_config: failed to rotate instance symlinks\n", r.2)
  else
    -- Create isym_path
    let c := create_symlink r.1 s1.opath s1.isym_path
    if c.2 ≠ 0 then
      (s1, c.1.report "_read_ofile_config: failed to create instance symlink\n", c.2)
    else DoutStreambuf.open_ofile s1 c.1

/-- Source `DoutStreambuf::_read_ofile_config`: the sink, the world and the
return value. -/
def DoutStreambuf._read_ofile_config (s : DoutStreambuf) (w : World) (conf : md_config_t) :
    DoutStreambuf × World × Int :=
  let s1 := { s with opath := _calculate_opath w conf, symlink_dir := "", isym_path := "" }
  if s1.opath = "" then (s1, w, 1)
  else
    let s2 := { s1 with symlink_dir := s1._get_symlink_dir w conf }
    if conf.log_per_instance ∧
        w.g_code_env = code_environment_t.CODE_ENVIRONMENT_DAEMON then
      DoutStreambuf.read_instance s2 w conf
    else DoutStreambuf.open_ofile s2 w

/-- Source `DoutStreambuf::handle_conf_change`, up to the call of
`_read_ofile_config`: flags reset, descriptor closed, syslog and stderr flags
derived from the configuration. -/
def DoutStreambuf.conf_flags (s : DoutStreambuf) (w : World) (conf : md_config_t)
    (changed : List String) : DoutStreambuf × World :=
  let w1 := if s.ofd ≠ -1 then sys_close w s.ofd else w
  let w2 :=
    if conf.log_to_syslog ∧ (changed.contains "log_to_syslog" ∨ changed.contains "name") ∧
        w.g_code_env = code_environment_t.CODE_ENVIRONMENT_DAEMON then
      (w1.emit Event.closelog).emit (Event.openlog conf.name)
    else w1
  let f1 := if conf.log_to_syslog then 0 ||| DOUTSB_FLAG_SYSLOG else 0
  let f2 :=
    if fd_is_open w2 STDERR_FILENO then
      (if conf.err_to_stderr then
        (if conf.log_to_stderr then f1 ||| DOUTSB_FLAG_STDERR_LOG
          else f1 &&& bit_not DOUTSB_FLAG_STDERR_LOG) ||| DOUTSB_FLAG_STDERR_ERR
      else
        (if conf.log_to_stderr then f1 ||| DOUTSB_FLAG_STDERR_LOG
          else f1 &&& bit_not DOUTSB_FLAG_STDERR_LOG) &&& bit_not DOUTSB_FLAG_STDERR_ERR)
    else f1
  ({ s with type_name := conf.type_name, flags := f2, ofd := -1 }, w2)

/-- Source `DoutStreambuf::handle_conf_change`. -/
def DoutStreambuf.handle_conf_change (s : DoutStreambuf) (w : World) (conf : md_config_t)
    (changed : List String) : DoutStreambuf × World :=
  let r := DoutStreambuf._read_ofile_config (s.conf_flags w conf changed).1
    (s.conf_flags w conf changed).2 conf
  if r.2.2 = 0 then ({ r.1 with flags := r.1.flags ||| DOUTSB_FLAG_OFILE }, r.2.1)
  else (r.1, r.2.1)

/-- Source `DoutStreambuf::get_tracked_conf_keys`. -/
def get_tracked_conf_keys : List String :=
  ["log_file", "log_sym_dir", "log_sym_history", "log_to_stderr", "err_to_stderr",
   "log_to_syslog", "log_per_instance"]

/-- Source `DoutStreambuf::reopen_logs`. -/
def DoutStreambuf.reopen_logs (s : DoutStreambuf) (w : World) (conf : md_config_t) :
    DoutStreambuf × World :=
  s.handle_conf_change w conf get_tracked_conf_keys

/-- Source `DoutStreambuf::handle_pid_change`, after the instance symlink was
dealt with: the rename of the output file. -/
def DoutStreambuf.pid_rename (s : DoutStreambuf) (w : World) (new_opath : String) :
    DoutStreambuf × World × Int :=
  let r := sys_rename w s.opath new_opath
  if r.2 ≠ 0 then
    (s, r.1.report ("handle_pid_change: failed to rename '" ++ s.opath ++ "' to '"
        ++ new_opath ++ "': " ++ w.strerror r.2 ++ "\n"), r.2)
  else ({ s with opath := new_opath }, r.1, 0)

/-- Source `DoutStreambuf::handle_pid_change`. -/
def DoutStreambuf.handle_pid_change (s : DoutStreambuf) (w : World) (conf : md_config_t) :
    DoutStreambuf × World × Int :=
  if ¬ (s.flags &&& DOUTSB_FLAG_OFILE ≠ 0) then (s, w, 0)
  else
    let new_opath := _calculate_opath w conf
    if s.opath = new_opath then (s, w, 0)
    else if s.isym_path ≠ "" then
      -- Re-create the instance symlink
      let c := create_symlink w new_opath s.isym_path
      if c.2 ≠ 0 then
        (s, c.1.report "handle_pid_change: failed to (re)create instance symlink\n", c.2)
      else s.pid_rename c.1 new_opath
    else s.pid_rename w new_opath

/-! ## The emergency path -/

/-- Number of slots of the global `dout_emerg_streams`
(`NUM_DOUT_EMERG_STREAMS`, the eighteen zeros of its initialiser). -/
def NUM_DOUT_EMERG_STREAMS : Nat := 18

/-- The sinks of a process and the global table of the emergency path. A sink is
known by its address, here its index among the sinks constructed so far; a slot
of the table holds a null pointer (`none`) or the address of a sink, so that the
emergency path sees the current state of a registered sink. -/
structure Process where
  sinks : List DoutStreambuf
  dout_emerg_streams : List (Option Nat)

/-- A process before any sink is constructed: every slot of the table is null. -/
def Process.start : Process :=
  { sinks := [], dout_emerg_streams := List.replicate NUM_DOUT_EMERG_STREAMS none }

/-- The loop of the constructor over the table: the first null slot takes the
address, a full table is left as it is. -/
def emerg_register (this : Nat) : List (Option Nat) → List (Option Nat)
  | [] => []
  | none :: rest => some this :: rest
  | some a :: rest => some a :: emerg_register this rest

/-- Source constructor `DoutStreambuf::DoutStreambuf` in a process: the new sink
(`DoutStreambuf.init`) and its registration in the table. -/
def Process.construct (p : Process) (OBUF_SZ : Nat) : Process :=
  { sinks := p.sinks ++ [DoutStreambuf.init OBUF_SZ],
    dout_emerg_streams := emerg_register p.sinks.length p.dout_emerg_streams }

/-- A member function changes the state of the sink at an address; the table is
not touched. -/
def Process.update (p : Process) (this : Nat) (s : DoutStreambuf) : Process :=
  { p with sinks := p.sinks.set this s }

/-- Source `DoutStreambuf::emergency_log_to_file_and_syslog`; `str` is the
zero-terminated text the pointer leads to. -/
def DoutStreambuf.emergency_log_to_file_and_syslog (s : DoutStreambuf) (w : World)
    (str : List Nat) : World :=
  let w1 := if s.ofd ≥ 0 then (safe_write w s.ofd (c_str str 0)).1 else w
  if s.flags &&& DOUTSB_FLAG_SYSLOG ≠ 0 then
    w1.emit (Event.syslog (LOG_USER ||| LOG_CRIT) (c_str str 0))
  else w1

/-- The loop of `dout_emergency` over the table: every slot that is not null
leads to a sink, which logs the text. -/
def emerg_broadcast (sinks : List DoutStreambuf) (str : List Nat) :
    List (Option Nat) → World → World
  | [], w => w
  | none :: rest, w => emerg_broadcast sinks str rest w
  | some a :: rest, w =>
    match sinks[a]? with
    | some s => emerg_broadcast sinks str rest (s.emergency_log_to_file_and_syslog w str)
    | none => emerg_broadcast sinks str rest w

/-- Source `dout_emergency(const char *)`: the text goes to stderr (the result
is ignored), then to every sink of the table. -/
def dout_emergency (p : Process) (w : World) (str : List Nat) : World :=
  emerg_broadcast p.sinks str p.dout_emerg_streams
    (safe_write w STDERR_FILENO (c_str str 0)).1

/-- The processes in which `n` sinks have been constructed and none destroyed:
from the start, constructors and changes of the state of a constructed sink. -/
inductive Constructed : Nat → Process → Prop where
  | start : Constructed 0 Process.start
  | construct (n : Nat) (p : Process) (OBUF_SZ : Nat) :
      Constructed n p → Constructed (n + 1) (p.construct OBUF_SZ)
  | update (n : Nat) (p : Process) (this : Nat) (s : DoutStreambuf) :
      Constructed n p → this < p.sinks.length → Constructed n (p.update this s)

/-! ## Observing the rotation and the life of a sink -/

/-- The moments at which the rounds of the second loop of `_rotate_files` start,
first round first: `(n, w)` is the round with `j = n - 1`, whose new position is
`k = n`, starting in world `w`. A round that fails ends the loop, as in
`rotate_shift`. -/
def rotate_shift_moments (conf : md_config_t) (base : String) :
    Nat → World → List (Nat × World)
  | 0, _ => []
  | n + 1, w =>
    let j : Int := (n : Int) - 1
    let path := chain_path base j
    let k : Int := j + 1
    if k ≥ conf.log_sym_history then
      let r := sys_unlink w path
      if r.2 ≠ 0 then [(n, w)]
      else (n, w) :: rotate_shift_moments conf base n r.1
    else
      let new_path := base ++ "." ++ toString k
      let r := sys_rename w path new_path
      if r.2 ≠ 0 then [(n, w)]
      else (n, w) :: rotate_shift_moments conf base n r.1

/-- The moments at which the rounds of the second loop start in a call of
`_rotate_files`. -/
def rotate_files_moments (w : World) (conf : md_config_t) (base : String) :
    List (Nat × World) :=
  let i := rotate_scan w base 2147483649 (-1)
  let max_symlink := i - 1
  rotate_shift_moments conf base (max_symlink + 2).toNat w

/-- The states a sink can be in: a newly constructed sink and whatever the
member functions make of it, in any world and with any arguments. -/
inductive Reachable : DoutStreambuf → Prop where
  | init (OBUF_SZ : Nat) : Reachable (DoutStreambuf.init OBUF_SZ)
  | handle_conf_change (s : DoutStreambuf) (w : World) (conf : md_config_t)
      (changed : List String) :
      Reachable s → Reachable (s.handle_conf_change w conf changed).1
  | reopen_logs (s : DoutStreambuf) (w : World) (conf : md_config_t) :
      Reachable s → Reachable (s.reopen_logs w conf).1
  | set_prio (s : DoutStreambuf) (prio : Int) : Reachable s → Reachable (s.set_prio prio)
  | sputc (s : DoutStreambuf) (w : World) (c : Nat) : Reachable s → Reachable (s.sputc w c).1
  | overflow (s : DoutStreambuf) (w : World) (c : Int) :
      Reachable s → Reachable (s.overflow w c).1
  | sync (s : DoutStreambuf) (w : World) : Reachable s → Reachable (s.sync w).1
  | handle_stderr_shutdown (s : DoutStreambuf) :
      Reachable s → Reachable s.handle_stderr_shutdown
  | handle_pid_change (s : DoutStreambuf) (w : World) (conf : md_config_t) :
      Reachable s → Reachable (s.handle_pid_change w conf).1

/-! ## Sample values

Concrete environments, configurations and sinks on which the statements below
are exercised. -/

/-- A world whose file system holds the listed paths, without injected failures,
run as a daemon with pid 4242 in `/var/log`; the clock text is a fixed stamp. -/
def World.of_files (files : List (String × Node)) : World :=
  { fs := fun p => files.lookup p,
    fault := fun _ => 0,
    next_fd := 3,
    cwd := "/var/log",
    pid := 4242,
    g_code_env := code_environment_t.CODE_ENVIRONMENT_DAEMON,
    time_text :=
      [50, 48, 49, 49, 45, 48, 54, 45, 48, 49, 32, 49, 50, 58, 48, 48, 58, 48, 48, 46,
       48, 48, 48, 48, 48, 48],
    strerror := fun e => "errno " ++ toString e,
    trace := [],
    aborted := false }

/-- A world in which every write to the given descriptor fails with `EIO` (5). -/
def World.failing_writes (fd : Int) : World :=
  { World.of_files [] with fault := fun c => if c = Syscall.write fd then 5 else 0 }

/-- A configuration with the given retention, logging to `/var/log/ceph.log`,
stderr and syslog routing off, no per-instance files. -/
def conf_with_history (history : Int) : md_config_t :=
  { log_file := "/var/log/ceph.log", log_sym_dir := "", log_sym_history := history,
    log_to_stderr := false, err_to_stderr := false, log_to_syslog := false,
    log_per_instance := false, name := "osd.0", type_name := "osd" }

/-- A new sink with a 62-byte buffer (a put area of five bytes) and the given
flags and descriptor. -/
def sink_with (flags : Nat) (ofd : Int) : DoutStreambuf :=
  { DoutStreambuf.init 62 with flags := flags, ofd := ofd }

/-- A world in which opening the given path fails with `EACCES` (13). -/
def World.failing_open (path : String) : World :=
  { World.of_files [] with fault := fun c => if c = Syscall.open_append path then 13 else 0 }

/-- The configuration `conf_with_history 2` without a log file. -/
def conf_no_file : md_config_t :=
  { conf_with_history 2 with log_file := "" }

/-- A sink whose put area is full: all four flags, descriptor 5, the tag of
priority 0 and the text `abc` in a put area of five bytes. -/
def full_sink : DoutStreambuf :=
  (((sink_with 15 5).set_prio 0).sputn (World.of_files []) [97, 98, 99]).1

/-- The files `base`, `base.1`, `base.2` with contents A, B, C. -/
def chain_1_2 : World :=
  World.of_files [("base", Node.file "A"), ("base.1", Node.file "B"), ("base.2", Node.file "C")]

/-- The files `base`, `base.0`, `base.1` with contents A, B, C. -/
def chain_0_1 : World :=
  World.of_files [("base", Node.file "A"), ("base.0", Node.file "B"), ("base.1", Node.file "C")]

/-- The files `base` and `base.1` with contents A, B. -/
def pair_1 : World :=
  World.of_files [("base", Node.file "A"), ("base.1", Node.file "B")]

/-- The files `base` and `base.0` with contents A, B. -/
def pair_0 : World :=
  World.of_files [("base", Node.file "A"), ("base.0", Node.file "B")]

/-- A process in which `n` sinks with 62-byte buffers have been constructed. -/
def Process.with_sinks : Nat → Process
  | 0 => Process.start
  | n + 1 => (Process.with_sinks n).construct 62

/-- A sink after reconfiguration with a log file that can be opened:
descriptor 3 and the file flag. -/
def opened_sink : DoutStreambuf :=
  ((DoutStreambuf.init 62).handle_conf_change (World.of_files []) (conf_with_history 2) []).1

/-- Nineteen sinks, the last of them reconfigured so that it has the open
descriptor 3. -/
def nineteen_sinks : Process :=
  (Process.with_sinks 19).update 18 opened_sink

/-- Two sinks, the second of them reconfigured so that it has the open
descriptor 3. -/
def two_sinks : Process :=
  (Process.with_sinks 2).update 1 opened_sink

/-- The files `/a` (content A) and `/d/a` (content B). -/
def root_files : World :=
  World.of_files [("/a", Node.file "A"), ("/d/a", Node.file "B")]

/-- The file `/d/a` and a link `/d/b` that points to `/old`. -/
def linked_files : World :=
  World.of_files [("/d/a", Node.file "A"), ("/d/b", Node.link "/old")]

/-! # Properties -/

/-! ## The flush: what it sends and what it does to the flags -/

/-- Clearing a mask and then testing a mask is testing against their combination. -/
theorem land_bit_not (f m k : Nat) : (f &&& bit_not m) &&& k = f &&& (bit_not m &&& k) := by
  rw [Nat.land_assoc]

/-- An emitted event goes to the end of the trace. -/
theorem emit_trace (w : World) (e : Event) : (w.emit e).trace = w.trace ++ [e] := rfl
/-- Emitting an event leaves the failure injection as it was. -/
theorem emit_fault (w : World) (e : Event) : (w.emit e).fault = w.fault := rfl

/-- What the syslog step of a flush sends. -/
theorem overflow_syslog_trace (flags : Nat) (prio : Int) (obuf : List Nat) (w : World) :
    (overflow_syslog flags prio obuf w).trace = w.trace ++
      (if flags &&& DOUTSB_FLAG_SYSLOG ≠ 0 then
        [Event.syslog (LOG_USER ||| dout_prio_to_syslog_prio prio) (c_str obuf (TIME_FMT_SZ + 1))]
       else []) := by
  unfold overflow_syslog
  split_ifs <;> simp [emit_trace]

/-- The syslog step leaves the failure injection as it was. -/
theorem overflow_syslog_fault (flags : Nat) (prio : Int) (obuf : List Nat) (w : World) :
    (overflow_syslog flags prio obuf w).fault = w.fault := by
  unfold overflow_syslog
  split_ifs <;> simp [emit_fault]

/-- What the stderr step of a flush sends. -/
theorem overflow_stderr_trace (flags : Nat) (prio : Int) (obuf : List Nat) (w : World) :
    (overflow_stderr flags prio obuf w).2.trace = w.trace ++
      (if (prio = -1 ∧ flags &&& DOUTSB_FLAG_STDERR_ERR ≠ 0) ∨
          (prio ≠ -1 ∧ flags &&& DOUTSB_FLAG_STDERR_LOG ≠ 0) then
        [Event.write STDERR_FILENO (c_str obuf 0) (-(w.fault (Syscall.write STDERR_FILENO) : Int))]
       else []) := by
  unfold overflow_stderr safe_write
  split_ifs <;> simp [emit_trace]

/-- The stderr step leaves the failure injection as it was. -/
theorem overflow_stderr_fault (flags : Nat) (prio : Int) (obuf : List Nat) (w : World) :
    (overflow_stderr flags prio obuf w).2.fault = w.fault := by
  unfold overflow_stderr safe_write
  split_ifs <;> simp [emit_fault]

/-- The flags after the stderr step of a flush. -/
theorem overflow_stderr_flags (flags : Nat) (prio : Int) (obuf : List Nat) (w : World) :
    (overflow_stderr flags prio obuf w).1 =
      if ((prio = -1 ∧ flags &&& DOUTSB_FLAG_STDERR_ERR ≠ 0) ∨
          (prio ≠ -1 ∧ flags &&& DOUTSB_FLAG_STDERR_LOG ≠ 0)) ∧
          w.fault (Syscall.write STDERR_FILENO) ≠ 0 then
        flags &&& bit_not DOUTSB_FLAG_STDERR
      else flags := by
  unfold overflow_stderr safe_write
  split_ifs <;> simp_all

/-- What the file step of a flush sends. -/
theorem overflow_ofile_trace (flags : Nat) (ofd : Int) (obuf : List Nat) (w : World) :
    (overflow_ofile flags ofd obuf w).2.trace = w.trace ++
      (if flags &&& DOUTSB_FLAG_OFILE ≠ 0 then
        [Event.write ofd (c_str obuf 0) (-(w.fault (Syscall.write ofd) : Int))]
       else []) := by
  unfold overflow_ofile safe_write
  split_ifs <;> simp [emit_trace]

/-- The flags after the file step of a flush. -/
theorem overflow_ofile_flags (flags : Nat) (ofd : Int) (obuf : List Nat) (w : World) :
    (overflow_ofile flags ofd obuf w).1 =
      if flags &&& DOUTSB_FLAG_OFILE ≠ 0 ∧ w.fault (Syscall.write ofd) ≠ 0 then
        flags &&& bit_not DOUTSB_FLAG_OFILE
      else flags := by
  unfold overflow_ofile safe_write
  split_ifs <;> simp_all

/-- The stderr step does not touch the file flag. -/
theorem stderr_keeps_ofile (flags : Nat) (prio : Int) (obuf : List Nat) (w : World) :
    (overflow_stderr flags prio obuf w).1 &&& DOUTSB_FLAG_OFILE = flags &&& DOUTSB_FLAG_OFILE := by
  rw [overflow_stderr_flags]
  split_ifs
  · rw [land_bit_not]
    have : bit_not DOUTSB_FLAG_STDERR &&& DOUTSB_FLAG_OFILE = DOUTSB_FLAG_OFILE := by decide
    rw [this]
  · rfl

/-- Everything a flush sends, in order: syslog record, stderr line, file line. -/
theorem overflow_trace (s : DoutStreambuf) (w : World) (c : Int) :
    (s.overflow w c).2.1.trace = w.trace ++
      (if s.flags &&& DOUTSB_FLAG_SYSLOG ≠ 0 then
        [Event.syslog (LOG_USER ||| dout_prio_to_syslog_prio s.record_prio)
          (c_str (s.formatted w.time_text) (TIME_FMT_SZ + 1))]
       else []) ++
      (if (s.record_prio = -1 ∧ s.flags &&& DOUTSB_FLAG_STDERR_ERR ≠ 0) ∨
          (s.record_prio ≠ -1 ∧ s.flags &&& DOUTSB_FLAG_STDERR_LOG ≠ 0) then
        [Event.write STDERR_FILENO (c_str (s.formatted w.time_text) 0)
          (-(w.fault (Syscall.write STDERR_FILENO) : Int))]
       else []) ++
      (if s.flags &&& DOUTSB_FLAG_OFILE ≠ 0 then
        [Event.write s.ofd (c_str (s.formatted w.time_text) 0)
          (-(w.fault (Syscall.write s.ofd) : Int))]
       else []) := by
  simp only [DoutStreambuf.overflow]
  rw [overflow_ofile_trace, overflow_stderr_trace, overflow_syslog_trace, stderr_keeps_ofile,
    overflow_stderr_fault, overflow_syslog_fault]

/-- The flags after a flush. -/
theorem overflow_flags (s : DoutStreambuf) (w : World) (c : Int) :
    (s.overflow w c).1.flags =
      if s.flags &&& DOUTSB_FLAG_OFILE ≠ 0 ∧ w.fault (Syscall.write s.ofd) ≠ 0 then
        (if ((s.record_prio = -1 ∧ s.flags &&& DOUTSB_FLAG_STDERR_ERR ≠ 0) ∨
            (s.record_prio ≠ -1 ∧ s.flags &&& DOUTSB_FLAG_STDERR_LOG ≠ 0)) ∧
            w.fault (Syscall.write STDERR_FILENO) ≠ 0 then
          s.flags &&& bit_not DOUTSB_FLAG_STDERR
        else s.flags) &&& bit_not DOUTSB_FLAG_OFILE
      else
        (if ((s.record_prio = -1 ∧ s.flags &&& DOUTSB_FLAG_STDERR_ERR ≠ 0) ∨
            (s.record_prio ≠ -1 ∧ s.flags &&& DOUTSB_FLAG_STDERR_LOG ≠ 0)) ∧
            w.fault (Syscall.write STDERR_FILENO) ≠ 0 then
          s.flags &&& bit_not DOUTSB_FLAG_STDERR
        else s.flags) := by
  simp only [DoutStreambuf.overflow, DoutStreambuf._clear_output_buffer]
  rw [overflow_ofile_flags, stderr_keeps_ofile, overflow_stderr_fault, overflow_syslog_fault,
    overflow_stderr_flags, overflow_syslog_fault]

/-- How the complements of the file mask and of the stderr mask meet each flag. -/
theorem bit_not_consts :
    bit_not DOUTSB_FLAG_OFILE &&& DOUTSB_FLAG_OFILE = 0 ∧
    bit_not DOUTSB_FLAG_OFILE &&& DOUTSB_FLAG_STDERR_LOG = DOUTSB_FLAG_STDERR_LOG ∧
    bit_not DOUTSB_FLAG_OFILE &&& DOUTSB_FLAG_STDERR_ERR = DOUTSB_FLAG_STDERR_ERR ∧
    bit_not DOUTSB_FLAG_OFILE &&& DOUTSB_FLAG_SYSLOG = DOUTSB_FLAG_SYSLOG ∧
    bit_not DOUTSB_FLAG_STDERR &&& DOUTSB_FLAG_OFILE = DOUTSB_FLAG_OFILE ∧
    bit_not DOUTSB_FLAG_STDERR &&& DOUTSB_FLAG_STDERR_LOG = 0 ∧
    bit_not DOUTSB_FLAG_STDERR &&& DOUTSB_FLAG_STDERR_ERR = 0 ∧
    bit_not DOUTSB_FLAG_STDERR &&& DOUTSB_FLAG_SYSLOG = DOUTSB_FLAG_SYSLOG := by decide

/-- What a flush does to each flag, by destination. -/
theorem overflow_flag_facts (s : DoutStreambuf) (w : World) (c : Int) :
    (s.flags &&& DOUTSB_FLAG_OFILE ≠ 0 → w.fault (Syscall.write s.ofd) ≠ 0 →
      (s.overflow w c).1.flags &&& DOUTSB_FLAG_OFILE = 0) ∧
    ((s.record_prio = -1 ∧ s.flags &&& DOUTSB_FLAG_STDERR_ERR ≠ 0) ∨
        (s.record_prio ≠ -1 ∧ s.flags &&& DOUTSB_FLAG_STDERR_LOG ≠ 0) →
      w.fault (Syscall.write STDERR_FILENO) ≠ 0 →
      (s.overflow w c).1.flags &&& DOUTSB_FLAG_STDERR_LOG = 0 ∧
      (s.overflow w c).1.flags &&& DOUTSB_FLAG_STDERR_ERR = 0) ∧
    (¬ (s.flags &&& DOUTSB_FLAG_OFILE ≠ 0 ∧ w.fault (Syscall.write s.ofd) ≠ 0) →
      (s.overflow w c).1.flags &&& DOUTSB_FLAG_OFILE = s.flags &&& DOUTSB_FLAG_OFILE) ∧
    (¬ (((s.record_prio = -1 ∧ s.flags &&& DOUTSB_FLAG_STDERR_ERR ≠ 0) ∨
        (s.record_prio ≠ -1 ∧ s.flags &&& DOUTSB_FLAG_STDERR_LOG ≠ 0)) ∧
        w.fault (Syscall.write STDERR_FILENO) ≠ 0) →
      (s.overflow w c).1.flags &&& DOUTSB_FLAG_STDERR_LOG = s.flags &&& DOUTSB_FLAG_STDERR_LOG ∧
      (s.overflow w c).1.flags &&& DOUTSB_FLAG_STDERR_ERR = s.flags &&& DOUTSB_FLAG_STDERR_ERR) ∧
    (s.overflow w c).1.flags &&& DOUTSB_FLAG_SYSLOG = s.flags &&& DOUTSB_FLAG_SYSLOG := by
  obtain ⟨h1, h2, h3, h4, h5, h6, h7, h8⟩ := bit_not_consts
  rw [overflow_flags]
  refine ⟨?_, ?_, ?_, ?_, ?_⟩
  · intro ha hb
    rw [if_pos ⟨ha, hb⟩, land_bit_not, h1, Nat.and_zero]
  · intro ha hb
    have hab := And.intro ha hb
    split_ifs <;> simp only [Nat.land_assoc, h2, h3, h6, h7, Nat.and_zero, and_self]
  · intro ha
    rw [if_neg ha]
    split_ifs
    · rw [land_bit_not, h5]
    · rfl
  · intro ha
    rw [if_neg ha]
    split_ifs <;> simp only [Nat.land_assoc, h2, h3, and_self]
  · split_ifs <;> simp only [Nat.land_assoc, h4, h8]

/-! ## Syslog severity (C3, C4) -/

/-- Claim C3: for every priority the syslog severity is `LOG_CRIT` exactly up to
3, `LOG_ERR` exactly in (3, 5], `LOG_WARNING` exactly in (5, 15], `LOG_NOTICE`
exactly in (15, 30], `LOG_INFO` exactly in (30, 40] and `LOG_DEBUG` exactly
above 40; the six severities are different values, so every priority has exactly
one of them. -/
theorem dout_prio_to_syslog_prio_buckets (p : Int) :
    (dout_prio_to_syslog_prio p = LOG_CRIT ↔ p ≤ 3) ∧
    (dout_prio_to_syslog_prio p = LOG_ERR ↔ 3 < p ∧ p ≤ 5) ∧
    (dout_prio_to_syslog_prio p = LOG_WARNING ↔ 5 < p ∧ p ≤ 15) ∧
    (dout_prio_to_syslog_prio p = LOG_NOTICE ↔ 15 < p ∧ p ≤ 30) ∧
    (dout_prio_to_syslog_prio p = LOG_INFO ↔ 30 < p ∧ p ≤ 40) ∧
    (dout_prio_to_syslog_prio p = LOG_DEBUG ↔ 40 < p) ∧
    [LOG_CRIT, LOG_ERR, LOG_WARNING, LOG_NOTICE, LOG_INFO, LOG_DEBUG].Nodup := by
  unfold dout_prio_to_syslog_prio LOG_CRIT LOG_ERR LOG_WARNING LOG_NOTICE LOG_INFO LOG_DEBUG
  refine ⟨?_, ?_, ?_, ?_, ?_, ?_, by decide⟩ <;> split_ifs <;> constructor <;> intro h <;> omega

/-- Claim C4 as stated fails: the threshold priorities are not mapped to the
lower severity of the two that meet there (3 is not mapped to `LOG_ERR`, and so
on for 5, 15, 30, 40). -/
theorem syslog_boundary_not_lower_severity :
    dout_prio_to_syslog_prio 3 ≠ LOG_ERR ∧
    dout_prio_to_syslog_prio 5 ≠ LOG_WARNING ∧
    dout_prio_to_syslog_prio 15 ≠ LOG_NOTICE ∧
    dout_prio_to_syslog_prio 30 ≠ LOG_INFO ∧
    dout_prio_to_syslog_prio 40 ≠ LOG_DEBUG := by decide

/-- Claim C4, amended: each threshold priority 3, 5, 15, 30, 40 is mapped to
the higher severity of the two that meet there (critical, error, warning,
notice, info); the lower severity starts one above the threshold. -/
theorem syslog_boundary_higher_severity :
    dout_prio_to_syslog_prio 3 = LOG_CRIT ∧ dout_prio_to_syslog_prio 4 = LOG_ERR ∧
    dout_prio_to_syslog_prio 5 = LOG_ERR ∧ dout_prio_to_syslog_prio 6 = LOG_WARNING ∧
    dout_prio_to_syslog_prio 15 = LOG_WARNING ∧ dout_prio_to_syslog_prio 16 = LOG_NOTICE ∧
    dout_prio_to_syslog_prio 30 = LOG_NOTICE ∧ dout_prio_to_syslog_prio 31 = LOG_INFO ∧
    dout_prio_to_syslog_prio 40 = LOG_INFO ∧ dout_prio_to_syslog_prio 41 = LOG_DEBUG := by
  decide

/-! ## Stderr routing (C2) -/

/-- Claim C2: what a flush sends is, in this order, the syslog record when
syslog routing is on, the formatted line on the standard-error descriptor
exactly when (the record priority is -1 and the stderr-err flag is set) or (the
priority is not -1 and the stderr-log flag is set), and the line on the output
descriptor when file routing is on. The stderr step gives the same result for
any two priorities different from -1. -/
theorem overflow_stderr_routing (s : DoutStreambuf) (w : World) (c : Int) :
    (s.overflow w c).2.1.trace = w.trace ++
      (if s.flags &&& DOUTSB_FLAG_SYSLOG ≠ 0 then
        [Event.syslog (LOG_USER ||| dout_prio_to_syslog_prio s.record_prio)
          (c_str (s.formatted w.time_text) (TIME_FMT_SZ + 1))]
       else []) ++
      (if (s.record_prio = -1 ∧ s.flags &&& DOUTSB_FLAG_STDERR_ERR ≠ 0) ∨
          (s.record_prio ≠ -1 ∧ s.flags &&& DOUTSB_FLAG_STDERR_LOG ≠ 0) then
        [Event.write STDERR_FILENO (c_str (s.formatted w.time_text) 0)
          (-(w.fault (Syscall.write STDERR_FILENO) : Int))]
       else []) ++
      (if s.flags &&& DOUTSB_FLAG_OFILE ≠ 0 then
        [Event.write s.ofd (c_str (s.formatted w.time_text) 0)
          (-(w.fault (Syscall.write s.ofd) : Int))]
       else []) ∧
    ∀ (flags : Nat) (p q : Int) (obuf : List Nat) (w' : World), p ≠ -1 → q ≠ -1 →
      overflow_stderr flags p obuf w' = overflow_stderr flags q obuf w' := by
  refine ⟨overflow_trace s w c, ?_⟩
  intro flags p q obuf w' hp hq
  simp only [overflow_stderr, hp, hq, false_and, false_or, ne_eq, not_false_eq_true, true_and]

/-- Claim C2 exercised: with only the stderr-log flag set, a record of priority 0
and one of priority 40 get the same stderr step. -/
theorem overflow_stderr_routing_witness :
    (0 : Int) ≠ -1 ∧ (40 : Int) ≠ -1 ∧
    overflow_stderr DOUTSB_FLAG_STDERR_LOG 0 [104, 105, 0] (World.of_files []) =
      overflow_stderr DOUTSB_FLAG_STDERR_LOG 40 [104, 105, 0] (World.of_files []) :=
  ⟨by decide, by decide,
    (overflow_stderr_routing (sink_with 0 (-1)) (World.of_files []) 0).2
      DOUTSB_FLAG_STDERR_LOG 0 40 [104, 105, 0] (World.of_files []) (by decide) (by decide)⟩

/-! ## Write failures (C6) -/

/-- Claim C6: in a flush a failed write to the output file leaves the file flag
clear, a failed write to stderr leaves both stderr flags clear; the flags of a
destination whose write did not fail (or was not made) are as before, the syslog
flag always; and a later flush of a sink with the flags so left sends nothing to
the destination that was disabled. -/
theorem overflow_write_failure_disables (s : DoutStreambuf) (w : World) (c : Int) :
    (s.flags &&& DOUTSB_FLAG_OFILE ≠ 0 → w.fault (Syscall.write s.ofd) ≠ 0 →
      (s.overflow w c).1.flags &&& DOUTSB_FLAG_OFILE = 0 ∧
      ∀ (s2 : DoutStreambuf) (w2 : World) (c2 : Int), s2.flags = (s.overflow w c).1.flags →
        (s2.overflow w2 c2).2.1.trace = w2.trace ++
          (if s2.flags &&& DOUTSB_FLAG_SYSLOG ≠ 0 then
            [Event.syslog (LOG_USER ||| dout_prio_to_syslog_prio s2.record_prio)
              (c_str (s2.formatted w2.time_text) (TIME_FMT_SZ + 1))]
           else []) ++
          (if (s2.record_prio = -1 ∧ s2.flags &&& DOUTSB_FLAG_STDERR_ERR ≠ 0) ∨
              (s2.record_prio ≠ -1 ∧ s2.flags &&& DOUTSB_FLAG_STDERR_LOG ≠ 0) then
            [Event.write STDERR_FILENO (c_str (s2.formatted w2.time_text) 0)
              (-(w2.fault (Syscall.write STDERR_FILENO) : Int))]
           else [])) ∧
    ((s.record_prio = -1 ∧ s.flags &&& DOUTSB_FLAG_STDERR_ERR ≠ 0) ∨
        (s.record_prio ≠ -1 ∧ s.flags &&& DOUTSB_FLAG_STDERR_LOG ≠ 0) →
      w.fault (Syscall.write STDERR_FILENO) ≠ 0 →
      ((s.overflow w c).1.flags &&& DOUTSB_FLAG_STDERR_LOG = 0 ∧
        (s.overflow w c).1.flags &&& DOUTSB_FLAG_STDERR_ERR = 0) ∧
      ∀ (s2 : DoutStreambuf) (w2 : World) (c2 : Int), s2.flags = (s.overflow w c).1.flags →
        (s2.overflow w2 c2).2.1.trace = w2.trace ++
          (if s2.flags &&& DOUTSB_FLAG_SYSLOG ≠ 0 then
            [Event.syslog (LOG_USER ||| dout_prio_to_syslog_prio s2.record_prio)
              (c_str (s2.formatted w2.time_text) (TIME_FMT_SZ + 1))]
           else []) ++
          (if s2.flags &&& DOUTSB_FLAG_OFILE ≠ 0 then
            [Event.write s2.ofd (c_str (s2.formatted w2.time_text) 0)
              (-(w2.fault (Syscall.write s2.ofd) : Int))]
           else [])) ∧
    (¬ (s.flags &&& DOUTSB_FLAG_OFILE ≠ 0 ∧ w.fault (Syscall.write s.ofd) ≠ 0) →
      (s.overflow w c).1.flags &&& DOUTSB_FLAG_OFILE = s.flags &&& DOUTSB_FLAG_OFILE) ∧
    (¬ (((s.record_prio = -1 ∧ s.flags &&& DOUTSB_FLAG_STDERR_ERR ≠ 0) ∨
        (s.record_prio ≠ -1 ∧ s.flags &&& DOUTSB_FLAG_STDERR_LOG ≠ 0)) ∧
        w.fault (Syscall.write STDERR_FILENO) ≠ 0) →
      (s.overflow w c).1.flags &&& DOUTSB_FLAG_STDERR_LOG = s.flags &&& DOUTSB_FLAG_STDERR_LOG ∧
      (s.overflow w c).1.flags &&& DOUTSB_FLAG_STDERR_ERR = s.flags &&& DOUTSB_FLAG_STDERR_ERR) ∧
    (s.overflow w c).1.flags &&& DOUTSB_FLAG_SYSLOG = s.flags &&& DOUTSB_FLAG_SYSLOG := by
  obtain ⟨ha, hb, hc, hd, he⟩ := overflow_flag_facts s w c
  refine ⟨?_, ?_, hc, hd, he⟩
  · intro h1 h2
    refine ⟨ha h1 h2, ?_⟩
    intro s2 w2 c2 hs
    have h0 : s2.flags &&& DOUTSB_FLAG_OFILE = 0 := by rw [hs]; exact ha h1 h2
    have hn : ¬ (s2.flags &&& DOUTSB_FLAG_OFILE ≠ 0) := fun h => h h0
    rw [overflow_trace, if_neg hn, List.append_nil]
  · intro h1 h2
    refine ⟨hb h1 h2, ?_⟩
    intro s2 w2 c2 hs
    have h0 : s2.flags &&& DOUTSB_FLAG_STDERR_LOG = 0 := by rw [hs]; exact (hb h1 h2).1
    have h0' : s2.flags &&& DOUTSB_FLAG_STDERR_ERR = 0 := by rw [hs]; exact (hb h1 h2).2
    rw [overflow_trace]
    simp [h0, h0']

/-- Claim C6 exercised: a sink with all four flags set and descriptor 5, in a
world where writes to descriptor 5 fail; the flush clears the file flag. -/
theorem overflow_write_failure_disables_witness :
    (sink_with 15 5).flags &&& DOUTSB_FLAG_OFILE ≠ 0 ∧
    (World.failing_writes 5).fault (Syscall.write (sink_with 15 5).ofd) ≠ 0 ∧
    ((sink_with 15 5).overflow (World.failing_writes 5) 0).1.flags &&& DOUTSB_FLAG_OFILE = 0 :=
  ⟨by decide, by decide,
    ((overflow_write_failure_disables (sink_with 15 5) (World.failing_writes 5) 0).1
      (by decide) (by decide)).1⟩

/-! ## The priority tag (C1) -/

/-- Storing at one index does not change what is read at another. -/
theorem getD_set_ne (l : List Nat) (i j v : Nat) (h : i ≠ j) :
    (l.set i v).getD j 0 = l.getD j 0 := by
  simp [List.getD_eq_getElem?_getD, List.getElem?_set_ne h]

/-- What is stored at an index inside the buffer is read back there. -/
theorem getD_set_eq (l : List Nat) (i v : Nat) (h : i < l.length) :
    (l.set i v).getD i 0 = v := by
  simp [List.getD_eq_getElem?_getD, List.getElem?_set_self, h]

/-- Characters written while the put area has room go into the buffer behind the
put pointer: the world is untouched, the pointer advances, earlier bytes stay. -/
theorem sputn_room (cs : List Nat) : ∀ (s : DoutStreambuf) (w : World),
    s.pptr + cs.length ≤ s.epptr →
    (s.sputn w cs).2 = w ∧ (s.sputn w cs).1.pptr = s.pptr + cs.length ∧
    ∀ i, i < s.pptr → (s.sputn w cs).1.obuf.getD i 0 = s.obuf.getD i 0 := by
  induction cs with
  | nil => intro s w _; simp [DoutStreambuf.sputn]
  | cons c cs ih =>
    intro s w h
    simp only [List.length_cons] at h
    have hroom : s.pptr < s.epptr := by omega
    simp only [DoutStreambuf.sputn, DoutStreambuf.sputc, if_pos hroom]
    obtain ⟨h1, h2, h3⟩ := ih { s with obuf := s.obuf.set s.pptr c, pptr := s.pptr + 1 } w
      (by simp only; omega)
    refine ⟨h1, by rw [h2]; simp only [List.length_cons]; omega, ?_⟩
    intro i hi
    rw [h3 i (by simp only; omega)]
    exact getD_set_ne _ _ _ _ (by omega)

/-- Claim C1 on the code: with `set_prio(p)` as the first write into a cleared
buffer and payload after it, the priority the flush reads at `obuf[TIME_FMT_SZ]`
is -11 whatever `p` is (the byte there is the sentinel), so it differs from every
`p` whose biased value `p + 11` is a non-zero byte. -/
theorem set_prio_tag_decodes_minus_eleven (s : DoutStreambuf) (w : World) (p : Int) (cs : List Nat)
    (h1 : s.pptr = TIME_FMT_SZ) (h2 : TIME_FMT_SZ < s.obuf.length)
    (h3 : TIME_FMT_SZ + 2 + cs.length ≤ s.epptr) :
    ((s.set_prio p).sputn w cs).1.record_prio = -11 ∧
    (1 ≤ p + 11 → p + 11 ≤ 255 → ((s.set_prio p).sputn w cs).1.record_prio ≠ p) := by
  have key : ((s.set_prio p).sputn w cs).1.record_prio = -11 := by
    obtain ⟨_, hp, hb⟩ := sputn_room cs (s.set_prio p) w
      (by simp only [DoutStreambuf.set_prio]; omega)
    have hp' : ((s.set_prio p).sputn w cs).1.pptr = TIME_FMT_SZ + 2 + cs.length := by
      rw [hp]; simp only [DoutStreambuf.set_prio]; omega
    unfold DoutStreambuf.record_prio
    rw [hp', getD_set_ne _ _ _ _ (by omega), getD_set_ne _ _ _ _ (by omega),
      hb TIME_FMT_SZ (by simp only [DoutStreambuf.set_prio]; omega)]
    simp only [DoutStreambuf.set_prio, h1]
    rw [getD_set_ne _ _ _ _ (by omega), getD_set_eq _ _ _ h2]
    decide
  refine ⟨key, ?_⟩
  intro ha hb
  rw [key]
  omega


/-- Claim C1 exercised: a new sink, `set_prio(0)`, the character `a`; the flush
reads priority -11, not 0. -/
theorem set_prio_tag_decodes_minus_eleven_witness :
    (sink_with 0 (-1)).pptr = TIME_FMT_SZ ∧ TIME_FMT_SZ < (sink_with 0 (-1)).obuf.length ∧
    TIME_FMT_SZ + 2 + [97].length ≤ (sink_with 0 (-1)).epptr ∧
    (((sink_with 0 (-1)).set_prio 0).sputn (World.of_files []) [97]).1.record_prio = -11 ∧
    (((sink_with 0 (-1)).set_prio 0).sputn (World.of_files []) [97]).1.record_prio ≠ 0 :=
  ⟨by decide, by decide, by decide,
    (set_prio_tag_decodes_minus_eleven (sink_with 0 (-1)) (World.of_files []) 0 [97]
      (by decide) (by decide) (by decide)).1,
    (set_prio_tag_decodes_minus_eleven (sink_with 0 (-1)) (World.of_files []) 0 [97]
      (by decide) (by decide) (by decide)).2 (by decide) (by decide)⟩

/-! ## Capacity exhaustion (C5) -/

/-- Claim C5 on the code: when the put area is full, `sputc(c)` is `overflow(c)`;
it reports success (returns `c`, not `EOF`), yet the sink and everything sent out
are those of a flush without a character, the put area is empty afterwards, and
the outcome is the same for every character: `c` is stored nowhere. -/
theorem sputc_on_full_buffer_drops_char (s : DoutStreambuf) (w : World) (c : Nat) (h : ¬ s.pptr < s.epptr) :
    (s.sputc w c).2.2 = (c : Int) ∧ (s.sputc w c).2.2 ≠ EOF ∧
    (s.sputc w c).1 = (s.overflow w EOF).1 ∧
    (s.sputc w c).2.1 = (s.overflow w EOF).2.1 ∧
    (s.sputc w c).1.pptr = TIME_FMT_SZ ∧
    ∀ c2 : Nat, (s.sputc w c2).1 = (s.sputc w c).1 ∧ (s.sputc w c2).2.1 = (s.sputc w c).2.1 := by
  have hc : (c : Int) ≠ EOF := by unfold EOF; omega
  refine ⟨?_, ?_, ?_, ?_, ?_, fun c2 => ⟨?_, ?_⟩⟩ <;>
    simp only [DoutStreambuf.sputc, if_neg h, DoutStreambuf.overflow, not_eof, if_neg hc,
      DoutStreambuf._clear_output_buffer]
  exact hc

/-- Claim C5 exercised: tag 0 and `abc` fill the put area; writing `d` (100)
flushes `abc` and returns success; the flush that follows sends an empty
payload, so `d` never reaches a destination. -/
theorem sputc_on_full_buffer_drops_char_witness :
    ¬ full_sink.pptr < full_sink.epptr ∧
    (full_sink.sputc (World.of_files []) 100).2.2 = 100 ∧
    (full_sink.sputc (World.of_files []) 100).1.pptr = TIME_FMT_SZ ∧
    (full_sink.sputc (World.of_files []) 100).2.1.trace =
      [Event.syslog 10 [11, 97, 98, 99],
       Event.write 2 ((World.of_files []).time_text ++ [32, 11, 97, 98, 99]) 0,
       Event.write 5 ((World.of_files []).time_text ++ [32, 11, 97, 98, 99]) 0] ∧
    ((full_sink.sputc (World.of_files []) 100).1.sync
        (full_sink.sputc (World.of_files []) 100).2.1).2.1.trace =
      [Event.syslog 10 [11, 97, 98, 99],
       Event.write 2 ((World.of_files []).time_text ++ [32, 11, 97, 98, 99]) 0,
       Event.write 5 ((World.of_files []).time_text ++ [32, 11, 97, 98, 99]) 0,
       Event.syslog 10 [],
       Event.write 2 ((World.of_files []).time_text ++ [32]) 0,
       Event.write 5 ((World.of_files []).time_text ++ [32]) 0] :=
  ⟨by decide, (sputc_on_full_buffer_drops_char full_sink (World.of_files []) 100 (by decide)).1,
   (sputc_on_full_buffer_drops_char full_sink (World.of_files []) 100 (by decide)).2.2.2.2.1, by decide, by decide⟩

/-! ## Rotation on the scenario of the spec (C7) -/

/-- Claim C7 on the code: with `base`, `base.1`, `base.2` and
`log_sym_history = 2` the rotation succeeds with one call, the rename of `base`
to `base.0`; `base.1` and `base.2` keep their contents and `base.2` is not
removed. -/
theorem rotate_files_renames_base_to_base_0 :
    (_rotate_files chain_1_2 (conf_with_history 2) "base").2 = 0 ∧
    (_rotate_files chain_1_2 (conf_with_history 2) "base").1.trace =
      [Event.sys (Syscall.rename "base" "base.0") 0] ∧
    (_rotate_files chain_1_2 (conf_with_history 2) "base").1.fs "base" = none ∧
    (_rotate_files chain_1_2 (conf_with_history 2) "base").1.fs "base.0" = some (Node.file "A") ∧
    (_rotate_files chain_1_2 (conf_with_history 2) "base").1.fs "base.1" = some (Node.file "B") ∧
    (_rotate_files chain_1_2 (conf_with_history 2) "base").1.fs "base.2" = some (Node.file "C") := by
  decide

/-! ## Reconfiguration (C9, C10) -/

/-- Reconfiguration leaves no descriptor before the file is opened again. -/
theorem conf_flags_ofd (s : DoutStreambuf) (w : World) (conf : md_config_t) (changed : List String) :
    (s.conf_flags w conf changed).1.ofd = -1 := rfl

/-- The first part of reconfiguration leaves the failure injection as it was. -/
theorem conf_flags_fault (s : DoutStreambuf) (w : World) (conf : md_config_t)
    (changed : List String) : (s.conf_flags w conf changed).2.fault = w.fault := by
  simp only [DoutStreambuf.conf_flags, sys_close]
  split_ifs <;> rfl

/-- Opening the output file does not touch the flags. -/
theorem open_ofile_flags (s : DoutStreambuf) (w : World) : (s.open_ofile w).1.flags = s.flags := by
  simp only [DoutStreambuf.open_ofile]
  split_ifs <;> rfl

/-- The instance symlink step does not touch the flags. -/
theorem read_instance_flags (s : DoutStreambuf) (w : World) (conf : md_config_t) :
    (s.read_instance w conf).1.flags = s.flags := by
  simp only [DoutStreambuf.read_instance]
  split_ifs
  · rfl
  · rfl
  · rw [open_ofile_flags]

/-- The source function `_read_ofile_config` does not touch the flags. -/
theorem read_ofile_config_flags (s : DoutStreambuf) (w : World) (conf : md_config_t) :
    (s._read_ofile_config w conf).1.flags = s.flags := by
  simp only [DoutStreambuf._read_ofile_config]
  split_ifs
  · rfl
  · rw [read_instance_flags]
  · rw [open_ofile_flags]

/-- The flags after reconfiguration: those derived from the configuration, plus
the file flag when `_read_ofile_config` returned 0. -/
theorem handle_conf_change_flags (s : DoutStreambuf) (w : World) (conf : md_config_t)
    (changed : List String) :
    (s.handle_conf_change w conf changed).1.flags =
      if ((s.conf_flags w conf changed).1._read_ofile_config (s.conf_flags w conf changed).2
          conf).2.2 = 0 then
        (s.conf_flags w conf changed).1.flags ||| DOUTSB_FLAG_OFILE
      else (s.conf_flags w conf changed).1.flags := by
  simp only [DoutStreambuf.handle_conf_change]
  split_ifs <;> simp [read_ofile_config_flags]

/-- The flags derived from the configuration, by the stderr probe. -/
theorem conf_flags_flags (s : DoutStreambuf) (w : World) (conf : md_config_t)
    (changed : List String) :
    (s.conf_flags w conf changed).1.flags =
      if fd_is_open w STDERR_FILENO then
        (if conf.err_to_stderr then
          (if conf.log_to_stderr then
              (if conf.log_to_syslog then 0 ||| DOUTSB_FLAG_SYSLOG else 0) |||
                DOUTSB_FLAG_STDERR_LOG
            else (if conf.log_to_syslog then 0 ||| DOUTSB_FLAG_SYSLOG else 0) &&&
                bit_not DOUTSB_FLAG_STDERR_LOG) ||| DOUTSB_FLAG_STDERR_ERR
        else
          (if conf.log_to_stderr then
              (if conf.log_to_syslog then 0 ||| DOUTSB_FLAG_SYSLOG else 0) |||
                DOUTSB_FLAG_STDERR_LOG
            else (if conf.log_to_syslog then 0 ||| DOUTSB_FLAG_SYSLOG else 0) &&&
                bit_not DOUTSB_FLAG_STDERR_LOG) &&& bit_not DOUTSB_FLAG_STDERR_ERR)
      else (if conf.log_to_syslog then 0 ||| DOUTSB_FLAG_SYSLOG else 0) := by
  have hf : fd_is_open (s.conf_flags w conf changed).2 STDERR_FILENO =
      fd_is_open w STDERR_FILENO := by
    simp only [fd_is_open, conf_flags_fault]
  simp only [DoutStreambuf.conf_flags] at hf ⊢
  rw [hf]

/-- Claim C9: after `handle_conf_change` the stderr-log flag is set exactly when
the zero-length write probe of stderr succeeds and `log_to_stderr` is true, and
the stderr-err flag exactly when the probe succeeds and `err_to_stderr` is true;
so with a failed probe neither flag is set, whatever the configuration and the
prior state. -/
theorem handle_conf_change_stderr_probe (s : DoutStreambuf) (w : World) (conf : md_config_t) (changed : List String) :
    ((s.handle_conf_change w conf changed).1.flags &&& DOUTSB_FLAG_STDERR_LOG ≠ 0 ↔
      fd_is_open w STDERR_FILENO = true ∧ conf.log_to_stderr = true) ∧
    ((s.handle_conf_change w conf changed).1.flags &&& DOUTSB_FLAG_STDERR_ERR ≠ 0 ↔
      fd_is_open w STDERR_FILENO = true ∧ conf.err_to_stderr = true) := by
  rw [handle_conf_change_flags, conf_flags_flags]
  generalize fd_is_open w STDERR_FILENO = probe
  generalize ((s.conf_flags w conf changed).1._read_ofile_config (s.conf_flags w conf changed).2
          conf).2.2 = ret
  generalize conf.log_to_stderr = b1
  generalize conf.err_to_stderr = b2
  generalize conf.log_to_syslog = b3
  by_cases hr : ret = 0
  · rw [if_pos hr]
    cases probe <;> cases b1 <;> cases b2 <;> cases b3 <;> decide
  · rw [if_neg hr]
    cases probe <;> cases b1 <;> cases b2 <;> cases b3 <;> decide


/-- A text with a non-empty middle part is not empty. -/
theorem append_dot_ne_empty (a b c : String) (hb : b ≠ "") : a ++ b ++ c ≠ "" := by
  intro h
  have h2 := congrArg String.length h
  simp only [String.length_append] at h2
  have : b.length ≠ 0 := by
    intro h0
    apply hb
    cases b with
    | mk d =>
      simp only [String.length] at h0
      have : d = [] := List.length_eq_zero.mp h0
      subst this; rfl
  have h3 : ("" : String).length = 0 := rfl
  omega

/-- Normalising a non-empty path gives a non-empty path. -/
theorem normalize_relative_ne_empty (w : World) (frm : String) (h : frm ≠ "") :
    normalize_relative w frm ≠ "" := by
  unfold normalize_relative
  split_ifs
  · exact h
  · exact append_dot_ne_empty _ _ _ (by decide)

/-- The output path is empty exactly when no log file is configured. -/
theorem calculate_opath_eq_empty (w : World) (conf : md_config_t) :
    _calculate_opath w conf = "" ↔ conf.log_file = "" := by
  unfold _calculate_opath
  split_ifs with h1 h2
  · simp [h1]
  · simp only [h1, iff_false]
    exact append_dot_ne_empty _ _ _ (by decide)
  · simp only [h1, iff_false]
    exact normalize_relative_ne_empty w _ h1




/-- The call `open` either fails with descriptor -1 and a non-zero errno, or gives
a descriptor from 0 on. -/
theorem sys_open_spec (w : World) (path : String) :
    ((sys_open w path).2.1 = -1 → (sys_open w path).2.2 ≠ 0) ∧
    ((sys_open w path).2.1 ≠ -1 → (sys_open w path).2.2 = 0 ∧ 0 ≤ (sys_open w path).2.1) := by
  unfold sys_open
  split_ifs with h
  · dsimp only
    refine ⟨fun _ => ?_, fun h1 => absurd rfl h1⟩
    exact_mod_cast h
  · dsimp only
    refine ⟨fun h1 => ?_, fun _ => ⟨rfl, ?_⟩⟩
    · exact h1.elim
    · omega

/-- The last step of `_read_ofile_config`, entered without a descriptor. -/
theorem open_ofile_spec (s : DoutStreambuf) (w : World) (h : s.ofd = -1) :
    (s.open_ofile w).1.ofd = (sys_open w s.opath).2.1 ∧
    ((s.open_ofile w).2.2 = 0 ↔ (sys_open w s.opath).2.1 ≠ -1) ∧
    ((sys_open w s.opath).2.1 = -1 → (s.open_ofile w).2.2 = (sys_open w s.opath).2.2) := by
  have hs := sys_open_spec w s.opath
  have h' : ¬ s.ofd ≠ -1 := fun hn => hn h
  simp only [DoutStreambuf.open_ofile, if_neg h']
  split_ifs with h1
  · exact ⟨rfl, ⟨fun h0 => absurd h0 (hs.1 h1), fun h0 => absurd h1 h0⟩, fun _ => rfl⟩
  · exact ⟨rfl, ⟨fun _ => h1, fun _ => rfl⟩, fun h0 => absurd h0 h1⟩

/-- The instance symlink step of `_read_ofile_config`, entered without a
descriptor: which code it returns. -/
theorem read_instance_spec (s : DoutStreambuf) (w : World) (conf : md_config_t) (h : s.ofd = -1) :
    ((s.read_instance w conf).2.2 = 0 ↔ (s.read_instance w conf).1.ofd ≠ -1) ∧
    ((_rotate_files w conf (s.symlink_dir ++ "/" ++ conf.name)).2 ≠ 0 →
      (s.read_instance w conf).2.2 = (_rotate_files w conf (s.symlink_dir ++ "/" ++ conf.name)).2) ∧
    ((_rotate_files w conf (s.symlink_dir ++ "/" ++ conf.name)).2 = 0 →
      (create_symlink (_rotate_files w conf (s.symlink_dir ++ "/" ++ conf.name)).1 s.opath
        (s.symlink_dir ++ "/" ++ conf.name)).2 ≠ 0 →
      (s.read_instance w conf).2.2 =
        (create_symlink (_rotate_files w conf (s.symlink_dir ++ "/" ++ conf.name)).1 s.opath
          (s.symlink_dir ++ "/" ++ conf.name)).2) ∧
    ((_rotate_files w conf (s.symlink_dir ++ "/" ++ conf.name)).2 = 0 →
      (create_symlink (_rotate_files w conf (s.symlink_dir ++ "/" ++ conf.name)).1 s.opath
        (s.symlink_dir ++ "/" ++ conf.name)).2 = 0 →
      (sys_open (create_symlink (_rotate_files w conf (s.symlink_dir ++ "/" ++ conf.name)).1
        s.opath (s.symlink_dir ++ "/" ++ conf.name)).1 s.opath).2.1 = -1 →
      (s.read_instance w conf).2.2 =
        (sys_open (create_symlink (_rotate_files w conf (s.symlink_dir ++ "/" ++ conf.name)).1
          s.opath (s.symlink_dir ++ "/" ++ conf.name)).1 s.opath).2.2) := by
  simp only [DoutStreambuf.read_instance]
  split_ifs with h1 h2
  · refine ⟨⟨fun h0 => absurd h0 h1, fun h0 => absurd h h0⟩, fun _ => rfl, fun h0 => absurd h0 h1,
      fun h0 => absurd h0 h1⟩
  · have h1' := not_not.mp h1
    refine ⟨⟨fun h0 => absurd h0 h2, fun h0 => absurd h h0⟩, fun h0 => absurd h1' h0,
      fun _ _ => rfl, fun _ h0 => absurd h0 h2⟩
  · have h1' := not_not.mp h1
    have h2' := not_not.mp h2
    obtain ⟨ha, hb, hc⟩ := open_ofile_spec
      { s with isym_path := s.symlink_dir ++ "/" ++ conf.name }
      (create_symlink (_rotate_files w conf (s.symlink_dir ++ "/" ++ conf.name)).1 s.opath
        (s.symlink_dir ++ "/" ++ conf.name)).1 h
    refine ⟨?_, fun h0 => absurd h1' h0, fun _ h0 => absurd h2' h0, fun _ _ h0 => hc h0⟩
    rw [hb, ha]



/-- The source function `_read_ofile_config`, entered without a descriptor: it
returns 0 exactly when it leaves a descriptor, and otherwise the code of the
step that failed. -/
theorem read_ofile_config_spec (s : DoutStreambuf) (w : World) (conf : md_config_t)
    (h : s.ofd = -1) :
    let opath := _calculate_opath w conf
    let isym := DoutStreambuf._get_symlink_dir
      { s with opath := opath, symlink_dir := "", isym_path := "" } w conf ++ "/" ++ conf.name
    let rot := _rotate_files w conf isym
    let lnk := create_symlink rot.1 opath isym
    ((s._read_ofile_config w conf).2.2 = 0 ↔ (s._read_ofile_config w conf).1.ofd ≠ -1) ∧
    (conf.log_file = "" → (s._read_ofile_config w conf).2.2 = 1) ∧
    (conf.log_file ≠ "" →
      conf.log_per_instance = true ∧
        w.g_code_env = code_environment_t.CODE_ENVIRONMENT_DAEMON →
      (rot.2 ≠ 0 → (s._read_ofile_config w conf).2.2 = rot.2) ∧
      (rot.2 = 0 → lnk.2 ≠ 0 → (s._read_ofile_config w conf).2.2 = lnk.2) ∧
      (rot.2 = 0 → lnk.2 = 0 → (sys_open lnk.1 opath).2.1 = -1 →
        (s._read_ofile_config w conf).2.2 = (sys_open lnk.1 opath).2.2 ∧
        (sys_open lnk.1 opath).2.2 ≠ 0)) ∧
    (conf.log_file ≠ "" →
      ¬ (conf.log_per_instance = true ∧
        w.g_code_env = code_environment_t.CODE_ENVIRONMENT_DAEMON) →
      (sys_open w opath).2.1 = -1 →
        (s._read_ofile_config w conf).2.2 = (sys_open w opath).2.2 ∧
        (sys_open w opath).2.2 ≠ 0) := by
  intro opath isym rot lnk
  have hemp := calculate_opath_eq_empty w conf
  simp only [DoutStreambuf._read_ofile_config]
  split_ifs with h1 h2
  · have hl := hemp.mp h1
    refine ⟨⟨fun h0 => absurd h0 (show (1 : Int) ≠ 0 by decide), fun h0 => absurd h h0⟩,
      fun _ => rfl, fun h0 => absurd hl h0, fun h0 => absurd hl h0⟩
  · have hl : conf.log_file ≠ "" := fun h0 => h1 (hemp.mpr h0)
    obtain ⟨ha, hb, hc, hd⟩ := read_instance_spec
      { s with opath := opath,
               symlink_dir := DoutStreambuf._get_symlink_dir
                { s with opath := opath, symlink_dir := "", isym_path := "" } w conf,
               isym_path := "" } w conf h
    refine ⟨ha, fun h0 => absurd h0 hl, fun _ _ => ⟨hb, hc, fun e1 e2 e3 => ⟨hd e1 e2 e3, ?_⟩⟩,
      fun _ h0 => absurd h2 h0⟩
    exact (sys_open_spec _ _).1 e3
  · have hl : conf.log_file ≠ "" := fun h0 => h1 (hemp.mpr h0)
    obtain ⟨ha, hb, hc⟩ := open_ofile_spec
      { s with opath := opath,
               symlink_dir := DoutStreambuf._get_symlink_dir
                { s with opath := opath, symlink_dir := "", isym_path := "" } w conf,
               isym_path := "" } w h
    refine ⟨?_, fun h0 => absurd h0 hl, fun _ h0 => absurd h0 h2,
      fun _ _ e3 => ⟨hc e3, (sys_open_spec _ _).1 e3⟩⟩
    rw [hb, ha]

/-- Claim C10: after `handle_conf_change`, whatever the prior sink state, the
file flag is set exactly when `_read_ofile_config` returned 0, which is exactly
when the output file was opened (`ofd` is not -1); on a non-zero return the flag
is clear and `ofd` is -1. An empty `log_file` returns 1; a failed rotation
returns the rotation's error, a failed symlink creation returns that error, a
failed `open` returns its (non-zero) errno. -/
theorem handle_conf_change_file_routing (s : DoutStreambuf) (w : World) (conf : md_config_t) (changed : List String) :
    let S := (s.conf_flags w conf changed).1
    let W := (s.conf_flags w conf changed).2
    let ret := (S._read_ofile_config W conf).2.2
    let after := (s.handle_conf_change w conf changed).1
    let opath := _calculate_opath W conf
    let isym := DoutStreambuf._get_symlink_dir
      { S with opath := opath, symlink_dir := "", isym_path := "" } W conf ++ "/" ++ conf.name
    let rot := _rotate_files W conf isym
    let lnk := create_symlink rot.1 opath isym
    (after.flags &&& DOUTSB_FLAG_OFILE ≠ 0 ↔ ret = 0) ∧
    (ret = 0 ↔ after.ofd ≠ -1) ∧
    (ret ≠ 0 → after.flags &&& DOUTSB_FLAG_OFILE = 0 ∧ after.ofd = -1) ∧
    (conf.log_file = "" → ret = 1) ∧
    (conf.log_file ≠ "" →
      conf.log_per_instance = true ∧
        W.g_code_env = code_environment_t.CODE_ENVIRONMENT_DAEMON →
      (rot.2 ≠ 0 → ret = rot.2) ∧
      (rot.2 = 0 → lnk.2 ≠ 0 → ret = lnk.2) ∧
      (rot.2 = 0 → lnk.2 = 0 → (sys_open lnk.1 opath).2.1 = -1 →
        ret = (sys_open lnk.1 opath).2.2 ∧ (sys_open lnk.1 opath).2.2 ≠ 0)) ∧
    (conf.log_file ≠ "" →
      ¬ (conf.log_per_instance = true ∧
        W.g_code_env = code_environment_t.CODE_ENVIRONMENT_DAEMON) →
      (sys_open W opath).2.1 = -1 →
        ret = (sys_open W opath).2.2 ∧ (sys_open W opath).2.2 ≠ 0) := by
  intro S W ret after opath isym rot lnk
  obtain ⟨ha, hb, hc, hd⟩ := read_ofile_config_spec S W conf (conf_flags_ofd s w conf changed)
  have hflag : after.flags &&& DOUTSB_FLAG_OFILE ≠ 0 ↔ ret = 0 := by
    show (s.handle_conf_change w conf changed).1.flags &&& DOUTSB_FLAG_OFILE ≠ 0 ↔ _
    rw [handle_conf_change_flags, conf_flags_flags]
    generalize fd_is_open w STDERR_FILENO = probe
    generalize conf.log_to_stderr = b1
    generalize conf.err_to_stderr = b2
    generalize conf.log_to_syslog = b3
    by_cases hr : ret = 0
    · rw [if_pos hr]
      simp only [hr, iff_true]
      cases probe <;> cases b1 <;> cases b2 <;> cases b3 <;> decide
    · rw [if_neg hr]
      simp only [hr, iff_false]
      cases probe <;> cases b1 <;> cases b2 <;> cases b3 <;> decide
  have hofd : after.ofd = (S._read_ofile_config W conf).1.ofd := by
    show (s.handle_conf_change w conf changed).1.ofd = _
    simp only [DoutStreambuf.handle_conf_change]
    split_ifs <;> rfl
  have hret : ret = 0 ↔ after.ofd ≠ -1 := by rw [hofd]; exact ha
  refine ⟨hflag, hret, ?_, hb, hc, hd⟩
  intro hne
  constructor
  · by_contra h0
    exact hne (hflag.mp h0)
  · by_contra h0
    exact hne (hret.mpr h0)


/-- Claim C10 exercised: without a log file the return value is 1; with a log
file whose `open` fails the return value is the errno 13, the file flag is
clear and `ofd` is -1, although the sink had the flag and a descriptor before. -/
theorem handle_conf_change_file_routing_witness :
    conf_no_file.log_file = "" ∧
    (((sink_with 15 7).conf_flags (World.of_files []) conf_no_file []).1._read_ofile_config
      ((sink_with 15 7).conf_flags (World.of_files []) conf_no_file []).2 conf_no_file).2.2 = 1 ∧
    (((sink_with 15 7).conf_flags (World.failing_open "/var/log/ceph.log")
        (conf_with_history 2) []).1._read_ofile_config
      ((sink_with 15 7).conf_flags (World.failing_open "/var/log/ceph.log")
        (conf_with_history 2) []).2 (conf_with_history 2)).2.2 ≠ 0 ∧
    ((sink_with 15 7).handle_conf_change (World.failing_open "/var/log/ceph.log")
        (conf_with_history 2) []).1.flags &&& DOUTSB_FLAG_OFILE = 0 ∧
    ((sink_with 15 7).handle_conf_change (World.failing_open "/var/log/ceph.log")
        (conf_with_history 2) []).1.ofd = -1 :=
  ⟨by decide,
    (handle_conf_change_file_routing (sink_with 15 7) (World.of_files []) conf_no_file []).2.2.2.1
      (by decide),
    by decide,
    ((handle_conf_change_file_routing (sink_with 15 7)
      (World.failing_open "/var/log/ceph.log") (conf_with_history 2) []).2.2.1 (by decide)).1,
    ((handle_conf_change_file_routing (sink_with 15 7)
      (World.failing_open "/var/log/ceph.log") (conf_with_history 2) []).2.2.1 (by decide)).2⟩

/-! ## Rotation in general (C8) -/

/-- A decimal digit character stands for its digit. -/
theorem digitChar_value : ∀ d : Nat, d < 10 → (Nat.digitChar d).toNat - 48 = d := by
  decide

/-- Reading back the digits `Nat.toDigitsCore` produces gives the number. -/
theorem toDigitsCore_value (fuel : Nat) : ∀ (n : Nat) (ds : List Char), n < fuel →
    List.foldl (fun a c => a * 10 + (c.toNat - 48)) 0 (Nat.toDigitsCore 10 fuel n ds) =
      List.foldl (fun a c => a * 10 + (c.toNat - 48)) n ds := by
  induction fuel with
  | zero => intro n ds h; omega
  | succ fuel ih =>
    intro n ds h
    have hd : (Nat.digitChar (n % 10)).toNat - 48 = n % 10 :=
      digitChar_value (n % 10) (Nat.mod_lt _ (by decide))
    simp only [Nat.toDigitsCore]
    split_ifs with h0
    · simp only [List.foldl_cons, hd]
      congr 1
      omega
    · rw [ih (n / 10) _ (by omega)]
      simp only [List.foldl_cons, hd]
      congr 1
      omega

/-- Different numbers have different decimal texts. -/
theorem repr_injective (a b : Nat) (h : Nat.repr a = Nat.repr b) : a = b := by
  have h1 : Nat.toDigits 10 a = Nat.toDigits 10 b := by
    have := congrArg String.data h
    simpa [Nat.repr, List.asString] using this
  have ha := toDigitsCore_value (a + 1) a [] (by omega)
  have hb := toDigitsCore_value (b + 1) b [] (by omega)
  simp only [List.foldl_nil] at ha hb
  rw [← ha, ← hb]
  exact congrArg _ h1

/-- Entry -1 of a chain is `base` itself. -/
theorem chain_path_neg (base : String) : chain_path base (-1) = base := by
  simp [chain_path]

/-- Entry `n` of a chain, `n` from 0 on, is `base.n`. -/
theorem chain_path_nat (base : String) (n : Nat) :
    chain_path base (n : Int) = base ++ "." ++ Nat.repr n := by
  have h : (n : Int) ≠ -1 := by omega
  simp only [chain_path, if_pos h]
  rfl

/-- A numbered entry is not `base`. -/
theorem chain_path_nat_ne_base (base : String) (n : Nat) : chain_path base (n : Int) ≠ base := by
  rw [chain_path_nat]
  intro h
  have := congrArg String.length h
  simp only [String.length_append] at this
  have h1 : (".": String).length = 1 := rfl
  omega

/-- Numbered entries with the same path have the same number. -/
theorem chain_path_nat_inj (base : String) (a b : Nat)
    (h : chain_path base (a : Int) = chain_path base (b : Int)) : a = b := by
  rw [chain_path_nat, chain_path_nat] at h
  have h1 := congrArg String.data h
  simp only [String.data_append, List.append_assoc] at h1
  have h2 := List.append_cancel_left h1
  have h3 := List.append_cancel_left h2
  exact repr_injective a b (String.ext h3)

/-- Entries of a chain at different positions (from -1 on) have different paths. -/
theorem chain_path_inj (base : String) (i j : Int) (hi : -1 ≤ i) (hj : -1 ≤ j)
    (h : chain_path base i = chain_path base j) : i = j := by
  by_cases h1 : i = -1
  · by_cases h2 : j = -1
    · omega
    · obtain ⟨b, rfl⟩ := Int.eq_ofNat_of_zero_le (show 0 ≤ j by omega)
      rw [h1, chain_path_neg] at h
      exact absurd h.symm (chain_path_nat_ne_base base b)
  · obtain ⟨a, rfl⟩ := Int.eq_ofNat_of_zero_le (show 0 ≤ i by omega)
    by_cases h2 : j = -1
    · rw [h2, chain_path_neg] at h
      exact absurd h (chain_path_nat_ne_base base a)
    · obtain ⟨b, rfl⟩ := Int.eq_ofNat_of_zero_le (show 0 ≤ j by omega)
      have := chain_path_nat_inj base a b h
      omega


/-- The scan stops at the first entry that is not accessible (or at `INT_MAX`). -/
theorem rotate_scan_spec (w : World) (base : String) (m : Int) :
    ∀ (fuel : Nat) (i : Int), i ≤ m → m ≤ INT_MAX →
      (∀ j : Int, i ≤ j → j < m → sys_access w (chain_path base j) = 0) →
      (m < INT_MAX → sys_access w (chain_path base m) ≠ 0) →
      m - i < (fuel : Int) → rotate_scan w base fuel i = m := by
  intro fuel
  induction fuel with
  | zero => intro i h1 _ _ _ h5; omega
  | succ fuel ih =>
    intro i h1 h2 h3 h4 h5
    simp only [rotate_scan]
    split_ifs with ha hb
    · by_contra hne
      exact hb (h3 i (le_refl i) (by omega))
    · have hb' := not_not.mp hb
      have him : i ≠ m := by
        intro e
        subst e
        exact h4 ha hb'
      exact ih (i + 1) (by omega) h2 (fun j hj1 hj2 => h3 j (by omega) hj2) h4 (by omega)
    · omega

/-- One round of the scan. -/
theorem rotate_scan_succ (w : World) (base : String) (fuel : Nat) (i : Int) :
    rotate_scan w base (fuel + 1) i =
      if i < INT_MAX then
        if sys_access w (chain_path base i) ≠ 0 then i
        else rotate_scan w base fuel (i + 1)
      else i := rfl

/-- The bound on the rounds of the scan is never what ends it: from `-1` on, any
bound above `INT_MAX + 1` gives the same result. -/
theorem rotate_scan_fuel (w : World) (base : String) :
    ∀ (fuel : Nat) (i : Int), INT_MAX - i < (fuel : Int) →
      rotate_scan w base (fuel + 1) i = rotate_scan w base fuel i := by
  intro fuel
  induction fuel with
  | zero =>
    intro i h
    have hi : ¬ i < INT_MAX := by omega
    simp only [rotate_scan, if_neg hi]
  | succ fuel ih =>
    intro i h
    rw [rotate_scan_succ w base (fuel + 1) i, rotate_scan_succ w base fuel i]
    split_ifs with h1 h2
    · rfl
    · exact ih (i + 1) (by omega)
    · rfl

/-- An accessible path exists. -/
theorem sys_access_isSome (w : World) (path : String) (h : sys_access w path = 0) :
    (w.fs path).isSome = true := by
  unfold sys_access at h
  split_ifs at h with h1 h2
  · exact h2

/-- A successful `unlink`: the path is gone, the call is in the trace. -/
theorem sys_unlink_ok (w : World) (path : String) (h : (sys_unlink w path).2 = 0) :
    (sys_unlink w path).1.fs = (fun p => if p = path then none else w.fs p) ∧
    (sys_unlink w path).1.trace = w.trace ++ [Event.sys (Syscall.unlink path) 0] := by
  unfold sys_unlink at h ⊢
  split_ifs at h ⊢ with h1 h2
  · exfalso
    simp only at h
    exact h1 (by exact_mod_cast h)
  · exact ⟨rfl, rfl⟩
  · exfalso
    simp [ENOENT] at h

/-- A successful `rename`: the node has moved, the call is in the trace. -/
theorem sys_rename_ok (w : World) (oldpath newpath : String)
    (h : (sys_rename w oldpath newpath).2 = 0) :
    (sys_rename w oldpath newpath).1.fs =
      (fun p => if p = newpath then w.fs oldpath else if p = oldpath then none else w.fs p) ∧
    (sys_rename w oldpath newpath).1.trace =
      w.trace ++ [Event.sys (Syscall.rename oldpath newpath) 0] := by
  unfold sys_rename at h ⊢
  split_ifs at h ⊢ with h1 h2
  · exfalso
    simp only at h
    exact h1 (by exact_mod_cast h)
  · exact ⟨rfl, rfl⟩
  · exfalso
    simp [ENOENT] at h


/-- The destination of a rename in the shift is the next entry of the chain. -/
theorem new_path_eq (base : String) (n : Nat) :
    base ++ "." ++ toString ((n : Int) - 1 + 1) = chain_path base (n : Int) := by
  have e : (n : Int) - 1 + 1 = (n : Int) := by omega
  rw [e, chain_path_nat]
  rfl

/-- A round of a successful shift at or beyond the retention: the unlink
succeeded and the shift goes on. -/
theorem rotate_shift_succ_unlink (conf : md_config_t) (base : String) (n : Nat) (w : World)
    (hk : conf.log_sym_history ≤ (n : Int))
    (h : (rotate_shift conf base (n + 1) w).2 = 0) :
    (sys_unlink w (chain_path base ((n : Int) - 1))).2 = 0 ∧
    rotate_shift conf base (n + 1) w =
      rotate_shift conf base n (sys_unlink w (chain_path base ((n : Int) - 1))).1 := by
  have hk' : (n : Int) - 1 + 1 ≥ conf.log_sym_history := by omega
  simp only [rotate_shift, if_pos hk'] at h ⊢
  split_ifs at h ⊢ with h1
  · exact absurd h h1
  · exact ⟨not_not.mp h1, rfl⟩

/-- A round of a successful shift inside the retention: the rename succeeded and
the shift goes on. -/
theorem rotate_shift_succ_rename (conf : md_config_t) (base : String) (n : Nat) (w : World)
    (hk : (n : Int) < conf.log_sym_history)
    (h : (rotate_shift conf base (n + 1) w).2 = 0) :
    (sys_rename w (chain_path base ((n : Int) - 1)) (chain_path base (n : Int))).2 = 0 ∧
    rotate_shift conf base (n + 1) w =
      rotate_shift conf base n
        (sys_rename w (chain_path base ((n : Int) - 1)) (chain_path base (n : Int))).1 := by
  have hk' : ¬ ((n : Int) - 1 + 1 ≥ conf.log_sym_history) := by omega
  simp only [rotate_shift, if_neg hk', new_path_eq] at h ⊢
  split_ifs at h ⊢ with h1
  · exact absurd h h1
  · exact ⟨not_not.mp h1, rfl⟩

/-- A successful shift of `n` rounds: its calls, the slots that receive the entry
before them, the entries that are gone, and the paths it leaves alone. -/
theorem rotate_shift_spec (conf : md_config_t) (base : String) :
    ∀ (n : Nat) (w : World), (rotate_shift conf base n w).2 = 0 →
      (rotate_shift conf base n w).1.trace = w.trace ++
        (List.range n).reverse.map (fun m : Nat =>
          if conf.log_sym_history ≤ (m : Int) then
            Event.sys (Syscall.unlink (chain_path base ((m : Int) - 1))) 0
          else
            Event.sys (Syscall.rename (chain_path base ((m : Int) - 1))
              (chain_path base (m : Int))) 0) ∧
      (∀ t : Nat, t < n → (t : Int) < conf.log_sym_history →
        (rotate_shift conf base n w).1.fs (chain_path base (t : Int)) =
          w.fs (chain_path base ((t : Int) - 1))) ∧
      (∀ t : Nat, t < n → (t = 0 ∨ conf.log_sym_history ≤ (t : Int) - 1) →
        (rotate_shift conf base n w).1.fs (chain_path base ((t : Int) - 1)) = none) ∧
      (∀ p : String, (∀ t : Nat, t < n → p ≠ chain_path base ((t : Int) - 1)) →
        (∀ t : Nat, t < n → (t : Int) < conf.log_sym_history → p ≠ chain_path base (t : Int)) →
        (rotate_shift conf base n w).1.fs p = w.fs p) := by
  intro n
  induction n with
  | zero =>
    intro w _
    simp [rotate_shift]
  | succ n ih =>
    intro w h
    have hne : ∀ a b : Int, -1 ≤ a → -1 ≤ b → a ≠ b → chain_path base a ≠ chain_path base b :=
      fun a b ha hb hab e => hab (chain_path_inj base a b ha hb e)
    by_cases hk : conf.log_sym_history ≤ (n : Int)
    · obtain ⟨hu, heq⟩ := rotate_shift_succ_unlink conf base n w hk h
      obtain ⟨hfs, htr⟩ := sys_unlink_ok w _ hu
      rw [heq] at h ⊢
      obtain ⟨i1, i2, i3, i4⟩ := ih _ h
      refine ⟨?_, ?_, ?_, ?_⟩
      · rw [i1, htr, List.range_succ, List.reverse_append]
        simp [hk]
      · intro t ht hR
        have htn : t < n := by omega
        rw [i2 t htn hR, hfs]
        simp only
        rw [if_neg (hne _ _ (by omega) (by omega) (by omega))]
      · intro t ht hc
        by_cases htn : t < n
        · exact i3 t htn hc
        · have e : t = n := by omega
          subst e
          rw [i4 _ (fun t' ht' => hne _ _ (by omega) (by omega) (by omega))
            (fun t' ht' hR' => hne _ _ (by omega) (by omega) (by omega)), hfs]
          simp
      · intro p hp1 hp2
        rw [i4 p (fun t ht => hp1 t (by omega)) (fun t ht hR => hp2 t (by omega) hR), hfs]
        simp only
        rw [if_neg (hp1 n (by omega))]
    · have hk' : (n : Int) < conf.log_sym_history := by omega
      obtain ⟨hu, heq⟩ := rotate_shift_succ_rename conf base n w hk' h
      obtain ⟨hfs, htr⟩ := sys_rename_ok w _ _ hu
      rw [heq] at h ⊢
      obtain ⟨i1, i2, i3, i4⟩ := ih _ h
      refine ⟨?_, ?_, ?_, ?_⟩
      · rw [i1, htr, List.range_succ, List.reverse_append]
        simp [hk]
      · intro t ht hR
        by_cases htn : t < n
        · rw [i2 t htn hR, hfs]
          simp only
          rw [if_neg (hne _ _ (by omega) (by omega) (by omega)),
            if_neg (hne _ _ (by omega) (by omega) (by omega))]
        · have e : t = n := by omega
          subst e
          rw [i4 _ (fun t' ht' => hne _ _ (by omega) (by omega) (by omega))
            (fun t' ht' hR' => hne _ _ (by omega) (by omega) (by omega)), hfs]
          simp
      · intro t ht hc
        by_cases htn : t < n
        · exact i3 t htn hc
        · have e : t = n := by omega
          subst e
          have e0 : t = 0 := by omega
          subst e0
          rw [i4 _ (fun t' ht' => absurd ht' (by omega))
            (fun t' ht' hR' => absurd ht' (by omega)), hfs]
          simp only
          rw [if_neg (hne _ _ (by omega) (by omega) (by omega))]
          simp
      · intro p hp1 hp2
        rw [i4 p (fun t ht => hp1 t (by omega)) (fun t ht hR => hp2 t (by omega) hR), hfs]
        simp only
        rw [if_neg (hp2 n (by omega) hk'), if_neg (hp1 n (by omega))]


/-- The rounds of a shift, newest bound first, split at the retention. -/
theorem rounds_split (f u r : Nat → Event) (R n : Nat) (h : R ≤ n)
    (hu : ∀ m, R ≤ m → f m = u m) (hr : ∀ m, m < R → f m = r m) :
    (List.range n).reverse.map f =
      (List.range' R (n - R)).reverse.map u ++ (List.range R).reverse.map r := by
  have e : List.range n = List.range R ++ List.range' R (n - R) := by
    rw [List.range_eq_range', List.range_eq_range']
    have := List.range'_append 0 R (n - R) 1
    simp only [Nat.zero_add, Nat.one_mul] at this
    rw [this]
    congr 1
    omega
  rw [e, List.reverse_append, List.map_append]
  congr 1
  · apply List.map_congr_left
    intro m hm
    rw [List.mem_reverse, List.mem_range'] at hm
    obtain ⟨i, _, rfl⟩ := hm
    exact hu _ (by omega)
  · apply List.map_congr_left
    intro m hm
    rw [List.mem_reverse, List.mem_range] at hm
    exact hr m hm

/-- On a chain of `L` accessible entries the scan finds `L` and the rotation is
the shift of `L` rounds. -/
theorem rotate_files_eq_shift (w : World) (conf : md_config_t) (base : String) (L : Nat)
    (hchain : ∀ n : Nat, n < L → sys_access w (chain_path base ((n : Int) - 1)) = 0)
    (hend : sys_access w (chain_path base ((L : Int) - 1)) ≠ 0)
    (hL : (L : Int) ≤ INT_MAX + 1) :
    _rotate_files w conf base = rotate_shift conf base L w := by
  have hs : rotate_scan w base 2147483649 (-1) = (L : Int) - 1 := by
    apply rotate_scan_spec w base ((L : Int) - 1) 2147483649 (-1)
    · omega
    · omega
    · intro j hj1 hj2
      have := hchain (j + 1).toNat (by omega)
      have e : (((j + 1).toNat : Nat) : Int) - 1 = j := by omega
      rw [e] at this
      exact this
    · intro _; exact hend
    · unfold INT_MAX at hL; omega
  simp only [_rotate_files, hs]
  congr 1
  omega

/-- Claim C8, amended: let the scan find a chain of `L` accessible entries
(`base` and the `L - 1` numbered slots after it, the next slot not accessible) and
let the retention be `R < L`. A successful `_rotate_files` makes exactly these
calls: an unlink of each of the `L - R` oldest entries, oldest first, then a
rename of each of the `R` newest entries to the next slot, oldest first.
Afterwards the first `R` numbered slots hold the former contents of the entry
before them, `base` itself and the slots from `R` on are gone, and no other path
has changed. -/
theorem rotate_files_retention (w : World) (conf : md_config_t) (base : String) (L R : Nat)
    (hchain : ∀ n : Nat, n < L → sys_access w (chain_path base ((n : Int) - 1)) = 0)
    (hend : sys_access w (chain_path base ((L : Int) - 1)) ≠ 0)
    (hL : (L : Int) ≤ INT_MAX + 1)
    (hR : conf.log_sym_history = (R : Int)) (hRL : R < L)
    (hok : (_rotate_files w conf base).2 = 0) :
    (_rotate_files w conf base).1.trace = w.trace ++
      (List.range' R (L - R)).reverse.map
        (fun m : Nat => Event.sys (Syscall.unlink (chain_path base ((m : Int) - 1))) 0) ++
      (List.range R).reverse.map
        (fun m : Nat => Event.sys (Syscall.rename (chain_path base ((m : Int) - 1))
          (chain_path base (m : Int))) 0) ∧
    (∀ t : Nat, t < R →
      (_rotate_files w conf base).1.fs (chain_path base (t : Int)) =
        w.fs (chain_path base ((t : Int) - 1)) ∧
      ((_rotate_files w conf base).1.fs (chain_path base (t : Int))).isSome = true) ∧
    (_rotate_files w conf base).1.fs base = none ∧
    (∀ t : Nat, R ≤ t → t + 1 < L →
      (_rotate_files w conf base).1.fs (chain_path base (t : Int)) = none) ∧
    (∀ p : String, (∀ n : Nat, n < L → p ≠ chain_path base ((n : Int) - 1)) →
      (_rotate_files w conf base).1.fs p = w.fs p) := by
  rw [rotate_files_eq_shift w conf base L hchain hend hL] at hok ⊢
  obtain ⟨i1, i2, i3, i4⟩ := rotate_shift_spec conf base L w hok
  refine ⟨?_, ?_, ?_, ?_, ?_⟩
  · rw [i1, List.append_assoc]
    congr 1
    apply rounds_split _ _ _ R L (by omega)
    · intro m hm
      rw [if_pos (by rw [hR]; omega)]
    · intro m hm
      rw [if_neg (by rw [hR]; omega)]
  · intro t ht
    have h1 := i2 t (by omega) (by rw [hR]; omega)
    refine ⟨h1, ?_⟩
    rw [h1]
    exact sys_access_isSome w _ (hchain t (by omega))
  · have := i3 0 (by omega) (Or.inl rfl)
    simpa [chain_path_neg] using this
  · intro t h1 h2
    have := i3 (t + 1) (by omega) (Or.inr (by rw [hR]; push_cast; omega))
    have e : ((t + 1 : Nat) : Int) - 1 = (t : Int) := by push_cast; omega
    rw [e] at this
    exact this
  · intro p hp
    apply i4 p hp
    intro t ht hR'
    rw [hR] at hR'
    have hp' := hp (t + 1) (by omega)
    have e : ((t + 1 : Nat) : Int) - 1 = (t : Int) := by push_cast; omega
    rw [e] at hp'
    exact hp'


/-- Claim C8 as stated fails: for the chain `base`, `base.1` (both accessible)
and retention 1 the rotation succeeds, `base` does not remain and nothing was
unlinked (the one call is a rename of `base`, `base.1` is still there); for the
chain `base`, `base.0` and retention 1 the rotation succeeds and `base` does not
remain either. -/
theorem rotate_files_base_does_not_remain :
    (sys_access pair_1 "base" = 0 ∧ sys_access pair_1 "base.1" = 0 ∧
      (_rotate_files pair_1 (conf_with_history 1) "base").2 = 0 ∧
      (_rotate_files pair_1 (conf_with_history 1) "base").1.fs "base" = none ∧
      (_rotate_files pair_1 (conf_with_history 1) "base").1.fs "base.1" = some (Node.file "B") ∧
      (_rotate_files pair_1 (conf_with_history 1) "base").1.trace =
        [Event.sys (Syscall.rename "base" "base.0") 0]) ∧
    (sys_access pair_0 "base" = 0 ∧ sys_access pair_0 "base.0" = 0 ∧
      (_rotate_files pair_0 (conf_with_history 1) "base").2 = 0 ∧
      (_rotate_files pair_0 (conf_with_history 1) "base").1.fs "base" = none ∧
      (_rotate_files pair_0 (conf_with_history 1) "base").1.fs "base.0" = some (Node.file "A")) := by
  decide

/-- Claim C8, amended, exercised: the chain `base`, `base.0`, `base.1` (three
entries) with retention 2; slot 1 ends with the former content of slot 0, slot 0
with the former content of `base`, and `base` is gone. -/
theorem rotate_files_retention_witness :
    sys_access chain_0_1 (chain_path "base" (((3 : Nat) : Int) - 1)) ≠ 0 ∧
    (_rotate_files chain_0_1 (conf_with_history 2) "base").2 = 0 ∧
    (_rotate_files chain_0_1 (conf_with_history 2) "base").1.fs (chain_path "base" 1) =
      chain_0_1.fs (chain_path "base" 0) ∧
    (_rotate_files chain_0_1 (conf_with_history 2) "base").1.fs "base" = none :=
  ⟨by decide, by decide,
    ((rotate_files_retention chain_0_1 (conf_with_history 2) "base" 3 2
      (by decide) (by decide) (by decide) (by decide) (by decide) (by decide)).2.1 1
        (by decide)).1,
    (rotate_files_retention chain_0_1 (conf_with_history 2) "base" 3 2
      (by decide) (by decide) (by decide) (by decide) (by decide) (by decide)).2.2.1⟩

/-! ## The emergency path (C11) -/

/-- What a sink sends when it logs an emergency text, and that the failure
injection stays as it was. -/
theorem emergency_log_spec (s : DoutStreambuf) (w : World) (str : List Nat) :
    (s.emergency_log_to_file_and_syslog w str).fault = w.fault ∧
    (s.emergency_log_to_file_and_syslog w str).trace = w.trace ++
      ((if s.ofd ≥ 0 then
          [Event.write s.ofd (c_str str 0) (-(w.fault (Syscall.write s.ofd) : Int))]
        else []) ++
       (if s.flags &&& DOUTSB_FLAG_SYSLOG ≠ 0 then
          [Event.syslog (LOG_USER ||| LOG_CRIT) (c_str str 0)]
        else [])) := by
  simp only [DoutStreambuf.emergency_log_to_file_and_syslog, safe_write, World.emit]
  split_ifs <;> simp

/-- Null slots are passed over. -/
theorem emerg_broadcast_null (sinks : List DoutStreambuf) (str : List Nat) (w : World) :
    ∀ m : Nat, emerg_broadcast sinks str (List.replicate m none) w = w := by
  intro m
  induction m with
  | zero => rfl
  | succ m ih => simpa [List.replicate_succ, emerg_broadcast] using ih

/-- The loop over a table whose first slots hold the addresses `b`, `b + 1`, ...
of `k` sinks and whose other slots are null: these sinks log, in this order. -/
theorem emerg_broadcast_spec (sinks : List DoutStreambuf) (str : List Nat)
    (fl : Syscall → Nat) (m : Nat) :
    ∀ (k b : Nat) (w : World), b + k ≤ sinks.length → w.fault = fl →
      (emerg_broadcast sinks str ((List.range' b k).map some ++ List.replicate m none) w).trace =
        w.trace ++ ((sinks.drop b).take k).flatMap (fun s =>
          (if s.ofd ≥ 0 then
              [Event.write s.ofd (c_str str 0) (-(fl (Syscall.write s.ofd) : Int))]
            else []) ++
          (if s.flags &&& DOUTSB_FLAG_SYSLOG ≠ 0 then
              [Event.syslog (LOG_USER ||| LOG_CRIT) (c_str str 0)]
            else [])) := by
  intro k
  induction k with
  | zero =>
    intro b w _ _
    simp [emerg_broadcast_null]
  | succ k ih =>
    intro b w hb hf
    have hlt : b < sinks.length := by omega
    obtain ⟨e1, e2⟩ := emergency_log_spec sinks[b] w str
    rw [List.range'_succ, List.map_cons, List.cons_append, emerg_broadcast,
      List.getElem?_eq_getElem hlt]
    simp only
    rw [ih (b + 1) _ (by omega) (by rw [e1, hf]), e2, List.drop_eq_getElem_cons hlt,
      List.take_succ_cons, List.flatMap_cons, hf, List.append_assoc]

/-- Registration takes the first null slot. -/
theorem emerg_register_free (this : Nat) (l : List Nat) (rest : List (Option Nat)) :
    emerg_register this (l.map some ++ none :: rest) = l.map some ++ some this :: rest := by
  induction l with
  | nil => rfl
  | cons a l ih => simp [emerg_register, ih]

/-- Registration in a table without a null slot changes nothing. -/
theorem emerg_register_full (this : Nat) (l : List Nat) :
    emerg_register this (l.map some) = l.map some := by
  induction l with
  | nil => rfl
  | cons a l ih => simp [emerg_register, ih]

/-- After `n` constructions there are `n` sinks, and the table holds the
addresses of the first eighteen of them, in order. -/
theorem constructed_table (n : Nat) (p : Process) (h : Constructed n p) :
    p.sinks.length = n ∧
    p.dout_emerg_streams =
      (List.range' 0 (min n NUM_DOUT_EMERG_STREAMS)).map some ++
        List.replicate (NUM_DOUT_EMERG_STREAMS - min n NUM_DOUT_EMERG_STREAMS) none := by
  induction h with
  | start => exact ⟨rfl, rfl⟩
  | construct n p sz _ ih =>
    obtain ⟨h1, h2⟩ := ih
    refine ⟨by simp [Process.construct, h1], ?_⟩
    simp only [Process.construct, h1, h2]
    by_cases hn : n < NUM_DOUT_EMERG_STREAMS
    · have e1 : min n NUM_DOUT_EMERG_STREAMS = n := by omega
      have e2 : min (n + 1) NUM_DOUT_EMERG_STREAMS = n + 1 := by omega
      have e3 : NUM_DOUT_EMERG_STREAMS - n = (NUM_DOUT_EMERG_STREAMS - (n + 1)) + 1 := by omega
      rw [e1, e2, e3, List.replicate_succ, emerg_register_free, List.range'_concat,
        List.map_append, List.append_assoc]
      simp
    · have e1 : min n NUM_DOUT_EMERG_STREAMS = NUM_DOUT_EMERG_STREAMS := by omega
      have e2 : min (n + 1) NUM_DOUT_EMERG_STREAMS = NUM_DOUT_EMERG_STREAMS := by omega
      rw [e1, e2, Nat.sub_self, List.replicate_zero, List.append_nil, emerg_register_full]
  | update n p this s _ _ ih =>
    obtain ⟨h1, h2⟩ := ih
    exact ⟨by simp [Process.update, h1], by simp [Process.update, h2]⟩

/-- Everything `dout_emergency` sends, whatever the number of sinks: the text on
stderr, then the first eighteen sinks log it, in the order of their
construction. -/
theorem dout_emergency_trace (n : Nat) (p : Process) (w : World) (str : List Nat)
    (h : Constructed n p) :
    (dout_emergency p w str).trace = w.trace ++
      [Event.write STDERR_FILENO (c_str str 0) (-(w.fault (Syscall.write STDERR_FILENO) : Int))] ++
      (p.sinks.take NUM_DOUT_EMERG_STREAMS).flatMap (fun s =>
        (if s.ofd ≥ 0 then
            [Event.write s.ofd (c_str str 0) (-(w.fault (Syscall.write s.ofd) : Int))]
          else []) ++
        (if s.flags &&& DOUTSB_FLAG_SYSLOG ≠ 0 then
            [Event.syslog (LOG_USER ||| LOG_CRIT) (c_str str 0)]
          else [])) := by
  obtain ⟨h1, h2⟩ := constructed_table n p h
  simp only [dout_emergency, h2]
  rw [emerg_broadcast_spec p.sinks str w.fault _ _ 0
    (safe_write w STDERR_FILENO (c_str str 0)).1 (by omega) rfl]
  simp only [safe_write, World.emit, List.drop_zero]
  congr 1
  by_cases hn : n ≤ NUM_DOUT_EMERG_STREAMS
  · rw [Nat.min_eq_left hn, List.take_of_length_le (by omega), List.take_of_length_le (by omega)]
  · rw [Nat.min_eq_right (by omega)]

/-- The sample processes are made by constructors only. -/
theorem constructed_with_sinks : ∀ n : Nat, Constructed n (Process.with_sinks n) := by
  intro n
  induction n with
  | zero => exact Constructed.start
  | succ n ih => exact Constructed.construct n _ 62 ih

/-- Claim C11 as stated fails: nineteen sinks are constructed and none
destroyed, the nineteenth has the open descriptor 3, and `dout_emergency` writes
the text to stderr only; nothing is written to descriptor 3. -/
theorem dout_emergency_misses_nineteenth_sink :
    Constructed 19 nineteen_sinks ∧
    nineteen_sinks.sinks.length = 19 ∧
    (nineteen_sinks.sinks[18]?).map (fun s => s.ofd) = some 3 ∧
    (dout_emergency nineteen_sinks (World.of_files []) [104, 105, 0]).trace =
      [Event.write STDERR_FILENO [104, 105] 0] :=
  ⟨Constructed.update 19 _ 18 opened_sink (constructed_with_sinks 19) (by decide),
    by decide, by decide, by decide⟩

/-- Claim C11, amended: for every number `n` of constructed sinks up to the
eighteen slots of the table (none destroyed), `dout_emergency` sends the text to
stderr and then, for each of the `n` sinks in the order of construction, to the
output descriptor of the sink when it is open (`ofd >= 0`) and to syslog when the
sink routes to syslog; with no sink it sends the text to stderr only. -/
theorem dout_emergency_reaches_registered_sinks (n : Nat) (p : Process) (w : World)
    (str : List Nat) (hn : n ≤ NUM_DOUT_EMERG_STREAMS) (h : Constructed n p) :
    p.sinks.length = n ∧
    (dout_emergency p w str).trace = w.trace ++
      [Event.write STDERR_FILENO (c_str str 0) (-(w.fault (Syscall.write STDERR_FILENO) : Int))] ++
      p.sinks.flatMap (fun s =>
        (if s.ofd ≥ 0 then
            [Event.write s.ofd (c_str str 0) (-(w.fault (Syscall.write s.ofd) : Int))]
          else []) ++
        (if s.flags &&& DOUTSB_FLAG_SYSLOG ≠ 0 then
            [Event.syslog (LOG_USER ||| LOG_CRIT) (c_str str 0)]
          else [])) ∧
    (n = 0 → (dout_emergency p w str).trace = w.trace ++
      [Event.write STDERR_FILENO (c_str str 0)
        (-(w.fault (Syscall.write STDERR_FILENO) : Int))]) := by
  have hl := (constructed_table n p h).1
  have ht := dout_emergency_trace n p w str h
  rw [List.take_of_length_le (by omega)] at ht
  refine ⟨hl, ht, ?_⟩
  intro h0
  have e : p.sinks = [] := List.length_eq_zero.mp (by omega)
  rw [ht, e]
  simp

/-- Claim C11, amended, exercised: two sinks, the second with the open
descriptor 3; the text goes to stderr and to descriptor 3. -/
theorem dout_emergency_reaches_registered_sinks_witness :
    2 ≤ NUM_DOUT_EMERG_STREAMS ∧ Constructed 2 two_sinks ∧
    (dout_emergency two_sinks (World.of_files []) [104, 105, 0]).trace =
      [Event.write STDERR_FILENO [104, 105] 0, Event.write 3 [104, 105] 0] :=
  ⟨by decide, Constructed.update 2 _ 1 opened_sink (constructed_with_sinks 2) (by decide),
    ((dout_emergency_reaches_registered_sinks 2 two_sinks (World.of_files []) [104, 105, 0]
      (by decide)
      (Constructed.update 2 _ 1 opened_sink (constructed_with_sinks 2) (by decide))).2.1).trans
      (by decide)⟩

/-! ## The instance symlink (C12, C13) -/

/-- A `symlink` call on a free path without injected failure succeeds. -/
theorem sys_symlink_free (w : World) (target linkpath : String)
    (hf : w.fault (Syscall.symlink target linkpath) = 0) (he : w.fs linkpath = none) :
    sys_symlink w target linkpath =
      ({ w with fs := fun p => if p = linkpath then some (Node.link target) else w.fs p }.emit
        (Event.sys (Syscall.symlink target linkpath) 0), 0) := by
  simp [sys_symlink, hf, he]

/-- The loop of `create_symlink` on a free path: one `symlink` call. -/
theorem create_symlink_loop_free (oldpath newpath : String) (w : World)
    (hf : w.fault (Syscall.symlink oldpath newpath) = 0) (he : w.fs newpath = none) :
    create_symlink_loop oldpath newpath w =
      ({ w with fs := fun p => if p = newpath then some (Node.link oldpath) else w.fs p }.emit
        (Event.sys (Syscall.symlink oldpath newpath) 0), 0) := by
  rw [create_symlink_loop, sys_symlink_free w oldpath newpath hf he]
  simp

/-- The loop of `create_symlink` on a taken path that can be unlinked: the
`symlink` call fails with `EEXIST`, the path is unlinked, the second `symlink`
call succeeds. -/
theorem create_symlink_loop_taken (oldpath newpath : String) (w : World)
    (hf : w.fault (Syscall.symlink oldpath newpath) = 0)
    (hu : w.fault (Syscall.unlink newpath) = 0)
    (he : (w.fs newpath).isSome = true) :
    create_symlink_loop oldpath newpath w =
      ({ w with
          fs := fun p => if p = newpath then some (Node.link oldpath) else w.fs p,
          trace := w.trace ++
            [Event.sys (Syscall.symlink oldpath newpath) (EEXIST : Int),
             Event.sys (Syscall.unlink newpath) 0,
             Event.sys (Syscall.symlink oldpath newpath) 0] }, 0) := by
  have h1 : sys_symlink w oldpath newpath =
      (w.emit (Event.sys (Syscall.symlink oldpath newpath) (EEXIST : Int)), (EEXIST : Int)) := by
    simp [sys_symlink, hf, he]
  have h2 : sys_unlink (w.emit (Event.sys (Syscall.symlink oldpath newpath) (EEXIST : Int)))
      newpath =
      ({ w.emit (Event.sys (Syscall.symlink oldpath newpath) (EEXIST : Int)) with
          fs := fun p => if p = newpath then none else w.fs p }.emit
        (Event.sys (Syscall.unlink newpath) 0), 0) := by
    simp [sys_unlink, World.emit, hu, he]
  rw [create_symlink_loop, h1]
  simp only [h2]
  rw [create_symlink_loop_free _ _ _ (by simpa [World.emit] using hf) (by simp [World.emit])]
  simp [World.emit, EEXIST]
  funext p
  split_ifs <;> rfl

/-- Claim C12: when `newpath` exists as a link (pointing anywhere), can be
unlinked, and `symlink` calls for it are not made to fail, `create_symlink`
returns 0 after exactly three calls (the `symlink` that fails with `EEXIST`, one
`unlink` of `newpath`, one `symlink` that succeeds); `newpath` is then a link to
the requested target (in its relative form when both paths have the same
directory name), and every other path is as before. -/
theorem create_symlink_replaces_link (w : World) (oldpath newpath other : String)
    (hex : w.fs newpath = some (Node.link other))
    (hu : w.fault (Syscall.unlink newpath) = 0)
    (hs : ∀ target : String, w.fault (Syscall.symlink target newpath) = 0) :
    (create_symlink w oldpath newpath).2 = 0 ∧
    (create_symlink w oldpath newpath).1.trace = w.trace ++
      [Event.sys (Syscall.symlink
          (if get_dirname oldpath = get_dirname newpath then "./" ++ get_basename oldpath
            else oldpath) newpath) (EEXIST : Int),
       Event.sys (Syscall.unlink newpath) 0,
       Event.sys (Syscall.symlink
          (if get_dirname oldpath = get_dirname newpath then "./" ++ get_basename oldpath
            else oldpath) newpath) 0] ∧
    (create_symlink w oldpath newpath).1.fs newpath =
      some (Node.link
        (if get_dirname oldpath = get_dirname newpath then "./" ++ get_basename oldpath
          else oldpath)) ∧
    (∀ p : String, p ≠ newpath → (create_symlink w oldpath newpath).1.fs p = w.fs p) := by
  have he : (w.fs newpath).isSome = true := by rw [hex]; rfl
  unfold create_symlink
  split_ifs with hd
  · rw [create_symlink_loop_taken _ _ _ (hs _) hu he]
    refine ⟨rfl, rfl, by simp, ?_⟩
    intro p hp
    simp [hp]
  · rw [create_symlink_loop_taken _ _ _ (hs _) hu he]
    refine ⟨rfl, rfl, by simp, ?_⟩
    intro p hp
    simp [hp]

/-- Claim C12 exercised: `/d/b` is a link to `/old`; `create_symlink("/d/a",
"/d/b")` returns 0 and `/d/b` is a link to `./a`. -/
theorem create_symlink_replaces_link_witness :
    linked_files.fs "/d/b" = some (Node.link "/old") ∧
    (create_symlink linked_files "/d/a" "/d/b").2 = 0 ∧
    (create_symlink linked_files "/d/a" "/d/b").1.fs "/d/b" = some (Node.link "./a") :=
  ⟨by decide,
    (create_symlink_replaces_link linked_files "/d/a" "/d/b" "/old" (by decide) (by decide) (fun _ => rfl)).1,
    (create_symlink_replaces_link linked_files "/d/a" "/d/b" "/old" (by decide) (by decide) (fun _ => rfl)).2.2.1⟩

/-- Claim C13 on the code: for `/a` and `/b`, both directly under the root
directory, `get_dirname` returns the paths themselves, they compare unequal, and
`create_symlink` makes `/b` a link to the absolute `/a`, not to `./a`; for `/d/a`
and `/d/b` the link is the relative `./a`. -/
theorem create_symlink_root_files_absolute :
    get_dirname "/a" = "/a" ∧ get_dirname "/b" = "/b" ∧
    (create_symlink root_files "/a" "/b").2 = 0 ∧
    (create_symlink root_files "/a" "/b").1.fs "/b" = some (Node.link "/a") ∧
    (create_symlink root_files "/a" "/b").1.trace =
      [Event.sys (Syscall.symlink "/a" "/b") 0] ∧
    (create_symlink root_files "/d/a" "/d/b").1.fs "/d/b" = some (Node.link "./a") := by
  have h1 : create_symlink root_files "/a" "/b" =
      create_symlink_loop "/a" "/b" root_files := by
    unfold create_symlink
    rw [if_neg (by decide)]
  have h2 : create_symlink root_files "/d/a" "/d/b" =
      create_symlink_loop ("./" ++ get_basename "/d/a") "/d/b" root_files := by
    unfold create_symlink
    rw [if_pos (by decide)]
  rw [h1, h2, create_symlink_loop_free "/a" "/b" root_files rfl (by decide),
    create_symlink_loop_free _ "/d/b" root_files rfl (by decide)]
  refine ⟨by decide, by decide, rfl, by decide, by decide, by decide⟩

/-! ## Rotation never clobbers (C14) -/

/-- Where the scan ends: between its start and `INT_MAX`, and below `INT_MAX`
only at an entry that is not accessible. -/
theorem rotate_scan_end (w : World) (base : String) :
    ∀ (fuel : Nat) (i : Int), i ≤ INT_MAX → INT_MAX - i < (fuel : Int) →
      i ≤ rotate_scan w base fuel i ∧ rotate_scan w base fuel i ≤ INT_MAX ∧
      (rotate_scan w base fuel i < INT_MAX →
        sys_access w (chain_path base (rotate_scan w base fuel i)) ≠ 0) := by
  intro fuel
  induction fuel with
  | zero => intro i h1 h2; omega
  | succ fuel ih =>
    intro i h1 h2
    rw [rotate_scan_succ]
    split_ifs with ha hb
    · exact ⟨le_refl i, h1, fun _ => hb⟩
    · obtain ⟨k1, k2, k3⟩ := ih (i + 1) (by omega) (by omega)
      exact ⟨by omega, k2, k3⟩
    · exact ⟨le_refl i, h1, fun h => absurd h ha⟩

/-- Without injected failures of `access`, a path that is not accessible does
not exist. -/
theorem sys_access_none (w : World) (path : String)
    (hacc : w.fault (Syscall.access path) = 0) (h : sys_access w path ≠ 0) :
    w.fs path = none := by
  unfold sys_access at h
  rw [if_neg (by simpa using hacc)] at h
  split_ifs at h with h1
  · exact absurd rfl h
  · simpa using h1

/-- A round of the shift whose unlink succeeds goes on with the next round. -/
theorem rotate_shift_round_unlink (conf : md_config_t) (base : String) (n : Nat) (w : World)
    (hk : conf.log_sym_history ≤ (n : Int))
    (h : (sys_unlink w (chain_path base ((n : Int) - 1))).2 = 0) :
    rotate_shift conf base (n + 1) w =
      rotate_shift conf base n (sys_unlink w (chain_path base ((n : Int) - 1))).1 ∧
    rotate_shift_moments conf base (n + 1) w =
      (n, w) :: rotate_shift_moments conf base n
        (sys_unlink w (chain_path base ((n : Int) - 1))).1 := by
  have hk' : (n : Int) - 1 + 1 ≥ conf.log_sym_history := by omega
  simp only [rotate_shift, rotate_shift_moments, if_pos hk', h, ne_eq, not_true_eq_false,
    if_false, and_self]

/-- A round of the shift whose rename succeeds goes on with the next round. -/
theorem rotate_shift_round_rename (conf : md_config_t) (base : String) (n : Nat) (w : World)
    (hk : (n : Int) < conf.log_sym_history)
    (h : (sys_rename w (chain_path base ((n : Int) - 1)) (chain_path base (n : Int))).2 = 0) :
    rotate_shift conf base (n + 1) w =
      rotate_shift conf base n
        (sys_rename w (chain_path base ((n : Int) - 1)) (chain_path base (n : Int))).1 ∧
    rotate_shift_moments conf base (n + 1) w =
      (n, w) :: rotate_shift_moments conf base n
        (sys_rename w (chain_path base ((n : Int) - 1)) (chain_path base (n : Int))).1 := by
  have hk' : ¬ ((n : Int) - 1 + 1 ≥ conf.log_sym_history) := by omega
  simp only [rotate_shift, rotate_shift_moments, if_neg hk', new_path_eq, h, ne_eq,
    not_true_eq_false, if_false, and_self]

/-- A round of the shift whose call fails is the last moment. -/
theorem rotate_shift_round_failed (conf : md_config_t) (base : String) (n : Nat) (w : World)
    (h : (conf.log_sym_history ≤ (n : Int) ∧
        (sys_unlink w (chain_path base ((n : Int) - 1))).2 ≠ 0) ∨
      ((n : Int) < conf.log_sym_history ∧
        (sys_rename w (chain_path base ((n : Int) - 1)) (chain_path base (n : Int))).2 ≠ 0)) :
    rotate_shift_moments conf base (n + 1) w = [(n, w)] := by
  rcases h with ⟨hk, h⟩ | ⟨hk, h⟩
  · have hk' : (n : Int) - 1 + 1 ≥ conf.log_sym_history := by omega
    simp only [rotate_shift_moments, if_pos hk', if_pos h]
  · have hk' : ¬ ((n : Int) - 1 + 1 ≥ conf.log_sym_history) := by omega
    simp only [rotate_shift_moments, if_neg hk', new_path_eq, if_pos h]

/-- In a shift that starts with its first destination free, every round starts
with its destination free, and the run goes on from each moment as the shift
from there. -/
theorem rotate_shift_moments_free (conf : md_config_t) (base : String) :
    ∀ (n : Nat) (w : World),
      (0 < n → (n : Int) - 1 < conf.log_sym_history →
        w.fs (chain_path base ((n : Int) - 1)) = none) →
      ∀ m ∈ rotate_shift_moments conf base n w,
        rotate_shift conf base n w = rotate_shift conf base (m.1 + 1) m.2 ∧
        ((m.1 : Int) < conf.log_sym_history → m.2.fs (chain_path base (m.1 : Int)) = none) := by
  intro n
  induction n with
  | zero =>
    intro w _ m hm
    simp [rotate_shift_moments] at hm
  | succ n ih =>
    intro w h0 m hm
    have hhead : rotate_shift conf base (n + 1) w = rotate_shift conf base ((n, w).1 + 1) (n, w).2 ∧
        ((((n, w) : Nat × World).1 : Int) < conf.log_sym_history →
          ((n, w) : Nat × World).2.fs (chain_path base (((n, w) : Nat × World).1 : Int)) = none) := by
      refine ⟨rfl, fun hlt => ?_⟩
      have := h0 (by omega) (by push_cast; omega)
      simpa using this
    by_cases hk : conf.log_sym_history ≤ (n : Int)
    · by_cases hu : (sys_unlink w (chain_path base ((n : Int) - 1))).2 = 0
      · obtain ⟨e1, e2⟩ := rotate_shift_round_unlink conf base n w hk hu
        rw [e2, List.mem_cons] at hm
        rcases hm with rfl | hm
        · exact hhead
        · have hfree : (sys_unlink w (chain_path base ((n : Int) - 1))).1.fs
              (chain_path base ((n : Int) - 1)) = none := by
            rw [(sys_unlink_ok w _ hu).1]; simp
          obtain ⟨r1, r2⟩ := ih _ (fun _ _ => hfree) m hm
          exact ⟨by rw [e1, r1], r2⟩
      · rw [rotate_shift_round_failed conf base n w (Or.inl ⟨hk, hu⟩), List.mem_singleton] at hm
        rw [hm]
        exact hhead
    · have hk' : (n : Int) < conf.log_sym_history := by omega
      by_cases hu : (sys_rename w (chain_path base ((n : Int) - 1))
          (chain_path base (n : Int))).2 = 0
      · obtain ⟨e1, e2⟩ := rotate_shift_round_rename conf base n w hk' hu
        rw [e2, List.mem_cons] at hm
        rcases hm with rfl | hm
        · exact hhead
        · have hne : chain_path base ((n : Int) - 1) ≠ chain_path base (n : Int) :=
            fun e => by
              have := chain_path_inj base _ _ (by omega) (by omega) e
              omega
          have hfree : (sys_rename w (chain_path base ((n : Int) - 1))
              (chain_path base (n : Int))).1.fs (chain_path base ((n : Int) - 1)) = none := by
            rw [(sys_rename_ok w _ _ hu).1]; simp [hne]
          obtain ⟨r1, r2⟩ := ih _ (fun _ _ => hfree) m hm
          exact ⟨by rw [e1, r1], r2⟩
      · rw [rotate_shift_round_failed conf base n w (Or.inr ⟨hk', hu⟩), List.mem_singleton] at hm
        rw [hm]
        exact hhead


/-- Every `unlink` call is recorded with its errno. -/
theorem sys_unlink_trace (w : World) (path : String) :
    (sys_unlink w path).1.trace =
      w.trace ++ [Event.sys (Syscall.unlink path) (sys_unlink w path).2] := by
  unfold sys_unlink
  split_ifs <;> rfl

/-- Every `rename` call is recorded with its errno. -/
theorem sys_rename_trace (w : World) (oldpath newpath : String) :
    (sys_rename w oldpath newpath).1.trace =
      w.trace ++ [Event.sys (Syscall.rename oldpath newpath) (sys_rename w oldpath newpath).2] := by
  unfold sys_rename
  split_ifs <;> rfl

/-- The rename calls a shift records are those of its rename rounds, in order. -/
theorem rotate_shift_renames (conf : md_config_t) (base : String) :
    ∀ (n : Nat) (w : World), ∃ new : List Event,
      (rotate_shift conf base n w).1.trace = w.trace ++ new ∧
      new.filterMap (fun e => match e with
        | Event.sys (Syscall.rename a b) _ => some (a, b)
        | _ => none) =
      (rotate_shift_moments conf base n w).filterMap (fun m =>
        if (m.1 : Int) < conf.log_sym_history then
          some (chain_path base ((m.1 : Int) - 1), chain_path base (m.1 : Int))
        else none) := by
  intro n
  induction n with
  | zero =>
    intro w
    exact ⟨[], by simp [rotate_shift], by simp [rotate_shift_moments]⟩
  | succ n ih =>
    intro w
    by_cases hk : conf.log_sym_history ≤ (n : Int)
    · have hk' : (n : Int) - 1 + 1 ≥ conf.log_sym_history := by omega
      have hnk : ¬ (n : Int) < conf.log_sym_history := by omega
      by_cases hu : (sys_unlink w (chain_path base ((n : Int) - 1))).2 = 0
      · obtain ⟨e1, e2⟩ := rotate_shift_round_unlink conf base n w hk hu
        obtain ⟨new, t1, t2⟩ := ih (sys_unlink w (chain_path base ((n : Int) - 1))).1
        refine ⟨Event.sys (Syscall.unlink (chain_path base ((n : Int) - 1)))
          (sys_unlink w (chain_path base ((n : Int) - 1))).2 :: new, ?_, ?_⟩
        · rw [e1, t1, sys_unlink_trace]; simp
        · rw [e2]
          simp only [List.filterMap_cons, if_neg hnk]
          exact t2
      · rw [rotate_shift_round_failed conf base n w (Or.inl ⟨hk, hu⟩)]
        refine ⟨[Event.sys (Syscall.unlink (chain_path base ((n : Int) - 1)))
          (sys_unlink w (chain_path base ((n : Int) - 1))).2,
          Event.emergency ("_rotate_files: failed to unlink '" ++
            chain_path base ((n : Int) - 1) ++ "': " ++
            w.strerror (sys_unlink w (chain_path base ((n : Int) - 1))).2 ++ "\n")], ?_, ?_⟩
        · simp only [rotate_shift, if_pos hk', if_pos hu, World.report, World.emit,
            sys_unlink_trace]
          simp
        · simp [hnk]
    · have hk' : (n : Int) < conf.log_sym_history := by omega
      have hk'' : ¬ ((n : Int) - 1 + 1 ≥ conf.log_sym_history) := by omega
      by_cases hu : (sys_rename w (chain_path base ((n : Int) - 1))
          (chain_path base (n : Int))).2 = 0
      · obtain ⟨e1, e2⟩ := rotate_shift_round_rename conf base n w hk' hu
        obtain ⟨new, t1, t2⟩ := ih (sys_rename w (chain_path base ((n : Int) - 1))
          (chain_path base (n : Int))).1
        refine ⟨Event.sys (Syscall.rename (chain_path base ((n : Int) - 1))
          (chain_path base (n : Int)))
          (sys_rename w (chain_path base ((n : Int) - 1)) (chain_path base (n : Int))).2 :: new,
          ?_, ?_⟩
        · rw [e1, t1, sys_rename_trace]; simp
        · rw [e2]
          simp only [List.filterMap_cons, if_pos hk']
          rw [t2]
      · rw [rotate_shift_round_failed conf base n w (Or.inr ⟨hk', hu⟩)]
        refine ⟨[Event.sys (Syscall.rename (chain_path base ((n : Int) - 1))
          (chain_path base (n : Int)))
          (sys_rename w (chain_path base ((n : Int) - 1)) (chain_path base (n : Int))).2,
          Event.emergency ("_rotate_files: failed to rename '" ++
            chain_path base ((n : Int) - 1) ++ "' to '" ++ chain_path base (n : Int) ++
            "': " ++ w.strerror (sys_rename w (chain_path base ((n : Int) - 1))
              (chain_path base (n : Int))).2 ++ "\n")], ?_, ?_⟩
        · simp only [rotate_shift, if_neg hk'', new_path_eq, if_pos hu, World.report,
            World.emit, sys_rename_trace]
          simp
        · simp [hk']

/-- Claim C14: when `access` succeeds exactly on existing paths (and the
retention is an `int`, at most `INT_MAX`), the rename calls `_rotate_files`
records are those of the rename rounds of its second loop, and at the moment
each round of the loop starts, the run going on from there as the shift from
that round, the destination of a rename round does not exist. -/
theorem rotate_files_never_clobbers (w : World) (conf : md_config_t) (base : String)
    (hacc : ∀ p : String, w.fault (Syscall.access p) = 0)
    (hmax : conf.log_sym_history ≤ INT_MAX) :
    (∃ new : List Event,
      (_rotate_files w conf base).1.trace = w.trace ++ new ∧
      new.filterMap (fun e => match e with
        | Event.sys (Syscall.rename a b) _ => some (a, b)
        | _ => none) =
      (rotate_files_moments w conf base).filterMap (fun m =>
        if (m.1 : Int) < conf.log_sym_history then
          some (chain_path base ((m.1 : Int) - 1), chain_path base (m.1 : Int))
        else none)) ∧
    ∀ m ∈ rotate_files_moments w conf base,
      _rotate_files w conf base = rotate_shift conf base (m.1 + 1) m.2 ∧
      ((m.1 : Int) < conf.log_sym_history → m.2.fs (chain_path base (m.1 : Int)) = none) := by
  obtain ⟨k1, k2, k3⟩ := rotate_scan_end w base 2147483649 (-1) (by decide) (by decide)
  refine ⟨?_, ?_⟩
  · simp only [_rotate_files, rotate_files_moments]
    exact rotate_shift_renames conf base _ w
  · intro m hm
    simp only [rotate_files_moments] at hm
    simp only [_rotate_files]
    apply rotate_shift_moments_free conf base _ w _ m hm
    intro hpos hlt
    have e : (((rotate_scan w base 2147483649 (-1) - 1 + 2).toNat : Nat) : Int) - 1 =
        rotate_scan w base 2147483649 (-1) := by omega
    rw [e] at hlt ⊢
    exact sys_access_none w _ (hacc _) (k3 (by omega))

/-- Claim C14 exercised: the chain `base`, `base.0`, `base.1` with retention 3;
the first round renames `base.1` to `base.2`, which does not exist when the
round starts. -/
theorem rotate_files_never_clobbers_witness :
    (∀ p : String, chain_0_1.fault (Syscall.access p) = 0) ∧
    (conf_with_history 3).log_sym_history ≤ INT_MAX ∧
    (((2 : Nat) : Int) < (conf_with_history 3).log_sym_history) ∧
    chain_0_1.fs (chain_path "base" ((2 : Nat) : Int)) = none :=
  ⟨fun _ => rfl, by decide, by decide,
    ((rotate_files_never_clobbers chain_0_1 (conf_with_history 3) "base" (fun _ => rfl)
      (by decide)).2 (2, chain_0_1) (List.Mem.head _)).2 (by decide)⟩

/-! ## The sink invariant (C15) -/

/-- After reconfiguration the file flag is set exactly when `_read_ofile_config`
returned 0. -/
theorem handle_conf_change_ofile_iff (s : DoutStreambuf) (w : World) (conf : md_config_t)
    (changed : List String) :
    (s.handle_conf_change w conf changed).1.flags &&& DOUTSB_FLAG_OFILE ≠ 0 ↔
      ((s.conf_flags w conf changed).1._read_ofile_config (s.conf_flags w conf changed).2
        conf).2.2 = 0 := by
  rw [handle_conf_change_flags, conf_flags_flags]
  generalize fd_is_open w STDERR_FILENO = probe
  generalize conf.log_to_stderr = b1
  generalize conf.err_to_stderr = b2
  generalize conf.log_to_syslog = b3
  generalize ((s.conf_flags w conf changed).1._read_ofile_config (s.conf_flags w conf changed).2
    conf).2.2 = ret
  by_cases hr : ret = 0
  · rw [if_pos hr]
    simp only [hr, iff_true]
    cases probe <;> cases b1 <;> cases b2 <;> cases b3 <;> decide
  · rw [if_neg hr]
    simp only [hr, iff_false]
    cases probe <;> cases b1 <;> cases b2 <;> cases b3 <;> decide

/-- After reconfiguration a set file flag comes with a descriptor. -/
theorem handle_conf_change_keeps (s : DoutStreambuf) (w : World) (conf : md_config_t)
    (changed : List String)
    (h : (s.handle_conf_change w conf changed).1.flags &&& DOUTSB_FLAG_OFILE ≠ 0) :
    (s.handle_conf_change w conf changed).1.ofd ≠ -1 := by
  have hret := (handle_conf_change_ofile_iff s w conf changed).mp h
  have hspec := (read_ofile_config_spec (s.conf_flags w conf changed).1
    (s.conf_flags w conf changed).2 conf (conf_flags_ofd s w conf changed)).1
  have hofd : (s.handle_conf_change w conf changed).1.ofd =
      ((s.conf_flags w conf changed).1._read_ofile_config (s.conf_flags w conf changed).2
        conf).1.ofd := by
    simp only [DoutStreambuf.handle_conf_change]
    split_ifs
    all_goals rfl
  rw [hofd]
  exact hspec.mp hret

/-- A flush keeps the descriptor and never sets the file flag. -/
theorem overflow_keeps (s : DoutStreambuf) (w : World) (c : Int) :
    (s.overflow w c).1.ofd = s.ofd ∧
    ((s.overflow w c).1.flags &&& DOUTSB_FLAG_OFILE ≠ 0 →
      s.flags &&& DOUTSB_FLAG_OFILE ≠ 0) := by
  refine ⟨rfl, fun h => ?_⟩
  obtain ⟨ha, _, hc, _, _⟩ := overflow_flag_facts s w c
  by_cases hf : s.flags &&& DOUTSB_FLAG_OFILE ≠ 0 ∧ w.fault (Syscall.write s.ofd) ≠ 0
  · exact hf.1
  · rw [hc hf] at h
    exact h

/-- The source function `handle_pid_change` changes neither flags nor
descriptor. -/
theorem handle_pid_change_keeps (s : DoutStreambuf) (w : World) (conf : md_config_t) :
    (s.handle_pid_change w conf).1.flags = s.flags ∧
    (s.handle_pid_change w conf).1.ofd = s.ofd := by
  simp only [DoutStreambuf.handle_pid_change, DoutStreambuf.pid_rename]
  split_ifs <;> exact ⟨rfl, rfl⟩

/-- In every state a sink can be in, a set file flag comes with a descriptor. -/
theorem reachable_ofile (s : DoutStreambuf) (h : Reachable s) :
    s.flags &&& DOUTSB_FLAG_OFILE ≠ 0 → s.ofd ≠ -1 := by
  induction h with
  | init sz =>
    intro h
    have e : (DoutStreambuf.init sz).flags = 0 := rfl
    rw [e] at h
    exact absurd (Nat.zero_and _) h
  | handle_conf_change s w conf changed _ _ => exact handle_conf_change_keeps s w conf changed
  | reopen_logs s w conf _ _ => exact handle_conf_change_keeps s w conf get_tracked_conf_keys
  | set_prio s prio _ ih => exact ih
  | sputc s w c _ ih =>
    simp only [DoutStreambuf.sputc]
    split_ifs
    · exact ih
    · intro h
      rw [(overflow_keeps s w c).1]
      exact ih ((overflow_keeps s w c).2 h)
  | overflow s w c _ ih =>
    intro h
    rw [(overflow_keeps s w c).1]
    exact ih ((overflow_keeps s w c).2 h)
  | sync s w _ ih =>
    have e : (s.sync w).1 = (s.overflow w EOF).1 := by
      simp only [DoutStreambuf.sync]
      split_ifs <;> rfl
    rw [e]
    intro h
    rw [(overflow_keeps s w EOF).1]
    exact ih ((overflow_keeps s w EOF).2 h)
  | handle_stderr_shutdown s _ ih =>
    intro h
    apply ih
    simp only [DoutStreambuf.handle_stderr_shutdown] at h
    rw [land_bit_not, bit_not_consts.2.2.2.2.1] at h
    exact h
  | handle_pid_change s w conf _ ih =>
    rw [(handle_pid_change_keeps s w conf).1, (handle_pid_change_keeps s w conf).2]
    exact ih

/-- Claim C15: in every state reachable from a newly constructed sink by
`handle_conf_change`, `reopen_logs`, `set_prio`, text writes, `overflow`, `sync`,
`handle_stderr_shutdown` and `handle_pid_change`, a set file flag comes with a
descriptor other than -1; so nothing a flush of such a state sends is a write on
descriptor -1. -/
theorem reachable_sink_ofile_has_descriptor (s : DoutStreambuf) (h : Reachable s) :
    (s.flags &&& DOUTSB_FLAG_OFILE ≠ 0 → s.ofd ≠ -1) ∧
    ∀ (w : World) (c : Int), ∃ sent : List Event,
      (s.overflow w c).2.1.trace = w.trace ++ sent ∧
      ∀ (data : List Nat) (res : Int), Event.write (-1) data res ∉ sent := by
  have hinv := reachable_ofile s h
  refine ⟨hinv, fun w c => ?_⟩
  refine ⟨_, by rw [overflow_trace, List.append_assoc, List.append_assoc], ?_⟩
  intro data res hmem
  simp only [List.mem_append] at hmem
  rcases hmem with hmem | hmem | hmem
  · split_ifs at hmem <;> simp at hmem
  · split_ifs at hmem
    · simp [STDERR_FILENO] at hmem
    · simp at hmem
  · split_ifs at hmem with hf
    · simp only [List.mem_singleton, Event.write.injEq] at hmem
      exact hinv hf hmem.1.symm
    · simp at hmem

/-- Claim C15 exercised: the sink reconfigured with a log file is reachable, has
the file flag and the descriptor 3. -/
theorem reachable_sink_ofile_has_descriptor_witness :
    Reachable opened_sink ∧ opened_sink.flags &&& DOUTSB_FLAG_OFILE ≠ 0 ∧ opened_sink.ofd = 3 ∧
    opened_sink.ofd ≠ -1 :=
  ⟨Reachable.handle_conf_change _ _ _ _ (Reachable.init 62), by decide, by decide,
    (reachable_sink_ofile_has_descriptor opened_sink (Reachable.handle_conf_change _ _ _ _ (Reachable.init 62))).1 (by decide)⟩

end Ceph
